import Mathlib

/-!
Verification of the spend-admission and kill-switch subsystem of the
Agent-Payment-Infrastructure repository.

The embedding below translates, table by table and route by route, the parts
of the source that the claims are about:

* `agents`, `usage_events`, `kill_switch_events`, `global_kill_switch`
  (src/database/schema.sql and the kill-switch schema extension);
* the Redis spend cache (`getAgentSpend` / `incrementAgentSpend`);
* the budget middleware `enforceAgentBudget` and
  `checkAgentBudgetAfterCreation` (src/middleware/agentBudget.js);
* the SQL function `is_agent_active` (kill-switch schema extension);
* the usage routes `/record` and `/record-bulk` (src/routes/usage.js);
* the kill-switch routes `/kill-agent`, `/pause-agent`, `/revive-agent`,
  `/emergency-stop-all`, `/emergency-stop-disable` (src/routes/killswitch.js);
* the background `KillSwitchMonitor` (its start/stop/tick structure and its
  `checkInfiniteLoops` / `triggerAutoKill` methods).

Money is modelled exactly, as `Int` in a fixed decimal sub-unit (the DB column
is `DECIMAL(10,6)`); timestamps are `Int` milliseconds; a calendar month is an
`Int` label (`DATE_TRUNC('month', ...)` / the `YYYY-MM` Redis key both become
this label).
-/

namespace AgentPay

/-- Status column of the `agents` table: `'active' | 'paused' | 'killed'`. -/
inductive AgentStatus
  | active
  | paused
  | killed
deriving DecidableEq, Repr

/-- A row of the `agents` table, with the kill-switch columns added by the
schema extension and the budget columns added by migration 001. -/
structure Agent where
  uuid : Nat
  agentId : String
  userId : Nat
  agentName : String
  status : AgentStatus
  pauseUntil : Option Int
  killReason : Option String
  killedAt : Option Int
  killedBy : Option Nat
  isSuspended : Bool
  monthlyCostLimit : Option Int
deriving DecidableEq, Repr

/-- A row of the `customers` table (only the columns the usage routes use). -/
structure Customer where
  uuid : Nat
  customerId : String
  userId : Nat
deriving DecidableEq, Repr

/-- A row of the `usage_events` ledger table.  `requestHash` models
`metadata->>'request_hash'`, `isError` models `metadata->>'error' IS NOT NULL`,
`eventMonth` models `DATE_TRUNC('month', event_timestamp)`. -/
structure UsageEvent where
  userId : Nat
  customerUuid : Nat
  agentUuid : Nat
  eventName : String
  vendor : String
  model : Option String
  costAmount : Int
  requestHash : Option String
  isError : Bool
  eventMonth : Int
  createdAt : Int
deriving DecidableEq, Repr

/-- A row of the append-only `kill_switch_events` audit table. -/
structure KillSwitchEvent where
  eventType : String
  targetType : String
  targetId : Option String
  userId : Option Nat
  triggeredBy : String
  reason : String
deriving DecidableEq, Repr

/-- The singleton `global_kill_switch` row. -/
structure GlobalKillSwitch where
  isEmergencyStopped : Bool
  stoppedAt : Option Int
  stoppedBy : Option Nat
  stopReason : Option String
deriving DecidableEq, Repr

/-- The whole mutable state the admission and kill-switch code touches: the
relevant Postgres tables, the Redis spend-cache hash (keyed by month and
external agent id), the clock, and a fresh-uuid counter. -/
structure Db where
  agents : List Agent
  customers : List Customer
  usageEvents : List UsageEvent
  killSwitchEvents : List KillSwitchEvent
  globalStop : GlobalKillSwitch
  spendCache : List ((Int × String) × Int)
  now : Int
  currentMonth : Int
  nextUuid : Nat
deriving DecidableEq, Repr

/-! ### Row lookups (SQL SELECTs used by the routes) -/

/-- `SELECT ... FROM agents WHERE agent_id = $1 AND user_id = $2`. -/
def findAgentExt (db : Db) (agentId : String) (userId : Nat) : Option Agent :=
  db.agents.find? fun a => a.agentId == agentId && a.userId == userId

/-- `SELECT ... FROM agents WHERE id = $1 AND user_id = $2`. -/
def findAgentByUuid (db : Db) (uuid : Nat) (userId : Nat) : Option Agent :=
  db.agents.find? fun a => a.uuid == uuid && a.userId == userId

/-- `SELECT id FROM customers WHERE user_id = $1 AND customer_id = $2`. -/
def findCustomer (db : Db) (customerId : String) (userId : Nat) : Option Customer :=
  db.customers.find? fun c => c.customerId == customerId && c.userId == userId

/-- Append one row to the `kill_switch_events` audit table
(`logKillSwitchEvent` in src/routes/killswitch.js). -/
def logKillSwitchEvent (db : Db) (eventType targetType : String) (targetId : Option String)
    (userId : Option Nat) (triggeredBy reason : String) : Db :=
  { db with killSwitchEvents :=
      db.killSwitchEvents ++ [⟨eventType, targetType, targetId, userId, triggeredBy, reason⟩] }

/-! ### The Redis spend cache (src/config/redis.js) -/

/-- `hIncrByFloat` on the per-month hash: add to the field, creating it when
absent. -/
def cacheIncr : List ((Int × String) × Int) → (Int × String) → Int →
    List ((Int × String) × Int)
  | [], k, v => [(k, v)]
  | (k', v') :: rest, k, v =>
      if k' = k then (k', v' + v) :: rest else (k', v') :: cacheIncr rest k v

/-- `hGet` on the per-month hash. -/
def cacheGet : List ((Int × String) × Int) → (Int × String) → Option Int
  | [], _ => none
  | (k', v') :: rest, k => if k' = k then some v' else cacheGet rest k

/-- `getAgentSpend`: read the agent's field of the current month's hash;
`parseFloat(spend) || 0` collapses a missing field to `0`. -/
def getAgentSpend (db : Db) (agentId : String) : Int :=
  (cacheGet db.spendCache (db.currentMonth, agentId)).getD 0

/-- `incrementAgentSpend`: `hIncrByFloat` on the current month's hash. -/
def incrementAgentSpend (db : Db) (agentId : String) (costAmount : Int) : Db :=
  { db with spendCache := cacheIncr db.spendCache (db.currentMonth, agentId) costAmount }

/-- The ledger aggregation run on a cache miss:
`SELECT COALESCE(SUM(cost_amount), 0) FROM usage_events WHERE agent_id = $1
AND DATE_TRUNC('month', event_timestamp) = DATE_TRUNC('month', CURRENT_DATE)`. -/
def ledgerMonthSpend (db : Db) (agentUuid : Nat) : Int :=
  (db.usageEvents.filter fun e =>
    e.agentUuid == agentUuid && e.eventMonth == db.currentMonth).foldl
    (fun s e => s + e.costAmount) 0

/-! ### The SQL function `is_agent_active` (kill-switch schema extension) -/

/-- The self-healing UPDATE inside `is_agent_active`:
`UPDATE agents SET status = 'active', pause_until = NULL WHERE id = $1`. -/
def selfHealAgent (db : Db) (uuid : Nat) : Db :=
  { db with agents := db.agents.map fun a =>
      if a.uuid == uuid then { a with status := .active, pauseUntil := none } else a }

/-- `is_agent_active(p_agent_id, p_user_id)`: global-stop check first, then
agent status; an expired pause is healed in place and the check continues as
active.  Returns the boolean together with the (possibly healed) state. -/
def is_agent_active (db : Db) (agentUuid : Nat) (userId : Nat) : Bool × Db :=
  if db.globalStop.isEmergencyStopped then (false, db)
  else
    match findAgentByUuid db agentUuid userId with
    | none => (false, db)
    | some a =>
      if a.status = .killed then (false, db)
      else
        match a.status, a.pauseUntil with
        | .paused, some t =>
            if db.now < t then (false, db)
            else (true, selfHealAgent db agentUuid)
        | .paused, none => (false, db)
        | _, _ => (a.status = .active, db)

/-! ### The budget middleware (src/middleware/agentBudget.js) -/

/-- Outcome of `enforceAgentBudget`: an HTTP denial, the DEFERRED flag for a
not-yet-created agent, or pass-through with the agent row attached. -/
inductive BudgetOutcome
  | denied (status : Nat) (code : String)
  | deferred
  | passed (agent : Agent)
deriving DecidableEq, Repr

/-- `UPDATE agents SET is_suspended = TRUE WHERE id = $1`. -/
def suspendAgentByUuid (db : Db) (uuid : Nat) : Db :=
  { db with agents := db.agents.map fun a =>
      if a.uuid == uuid then { a with isSuspended := true } else a }

/-- `enforceAgentBudget` line by line: missing `agent_id` is a 400; an unknown
agent defers; a suspended agent is a 403 `AGENT_SUSPENDED`; with a monthly
limit set, cached spend is read (a read of 0 falls back to the ledger and
backfills the cache when positive), and a projected overrun suspends the agent
and denies 403 `BUDGET_LIMIT_EXCEEDED`. -/
def enforceAgentBudget (db : Db) (agentIdOpt : Option String) (costAmountOpt : Option Int)
    (userId : Nat) : BudgetOutcome × Db :=
  match agentIdOpt with
  | none => (.denied 400 "MISSING_AGENT_ID", db)
  | some agentId =>
    match findAgentExt db agentId userId with
    | none => (.deferred, db)
    | some agent =>
      if agent.isSuspended then (.denied 403 "AGENT_SUSPENDED", db)
      else
        match agent.monthlyCostLimit with
        | none => (.passed agent, db)
        | some limit =>
          let requestedCost := costAmountOpt.getD 0
          let spend0 := getAgentSpend db agentId
          let (currentSpend, db1) :=
            if spend0 = 0 then
              let dbSpend := ledgerMonthSpend db agent.uuid
              if 0 < dbSpend then
                let db' := incrementAgentSpend db agentId dbSpend
                (getAgentSpend db' agentId, db')
              else (dbSpend, db)
            else (spend0, db)
          let projectedSpend := currentSpend + requestedCost
          if limit < projectedSpend then
            (.denied 403 "BUDGET_LIMIT_EXCEEDED", suspendAgentByUuid db1 agent.uuid)
          else (.passed agent, db1)

/-- Outcome of the post-creation budget check. -/
inductive PostCheck
  | allowed
  | deniedWith (code : String)
  | failed
deriving DecidableEq, Repr

/-- `checkAgentBudgetAfterCreation`: the deferred-path budget check run after
the agent row has been created (a fresh agent has $0 spend, so only the first
request's cost is compared against the limit). -/
def checkAgentBudgetAfterCreation (db : Db) (agentUuid : Nat) (requestedCost : Int)
    (userId : Nat) : PostCheck × Db :=
  match findAgentByUuid db agentUuid userId with
  | none => (.failed, db)
  | some agent =>
    if agent.isSuspended then (.deniedWith "AGENT_SUSPENDED", db)
    else
      match agent.monthlyCostLimit with
      | some limit =>
        if limit < requestedCost then
          (.deniedWith "BUDGET_LIMIT_EXCEEDED", suspendAgentByUuid db agentUuid)
        else (.allowed, db)
      | none => (.allowed, db)

/-! ### The usage-recording routes (src/routes/usage.js) -/

/-- The request body of `/record` (and of one element of `/record-bulk`'s
`events`), after JSON parsing: exactly the fields the code reads.
`requestHash` and `isError` stand for the corresponding `metadata` fields;
`eventMonth` is the month of the (optional) client-supplied
`event_timestamp`. -/
structure RecordBody where
  eventName : String
  agentId : Option String
  customerId : String
  vendor : String
  model : Option String
  costAmount : Option Int
  requestHash : Option String
  isError : Bool
  eventMonth : Option Int
deriving DecidableEq, Repr

/-- The Joi `usageEventSchema` constraints the claims depend on: `agent_id`
is required and `cost_amount` is a required positive number. -/
def validateRecordBody (b : RecordBody) : Bool :=
  b.agentId.isSome &&
    (match b.costAmount with
     | some c => decide (0 < c)
     | none => false)

/-- Result of a usage-recording request. -/
inductive RecordResult
  | ok
  | validationError
  | denied (status : Nat) (code : String)
  | serverError
deriving DecidableEq, Repr

/-- `ensureCustomerExists`: look the external customer id up, creating the row
when absent. -/
def ensureCustomerExists (db : Db) (userId : Nat) (customerId : String) : Nat × Db :=
  match findCustomer db customerId userId with
  | some c => (c.uuid, db)
  | none =>
    (db.nextUuid,
      { db with
          customers := db.customers ++ [⟨db.nextUuid, customerId, userId⟩],
          nextUuid := db.nextUuid + 1 })

/-- `ensureAgentExists`: look the external agent id up, creating the row with
the schema defaults (`status 'active'`, `is_suspended FALSE`, unlimited
budget) when absent. -/
def ensureAgentExists (db : Db) (userId : Nat) (agentId : String) : Nat × Db :=
  match findAgentExt db agentId userId with
  | some a => (a.uuid, db)
  | none =>
    (db.nextUuid,
      { db with
          agents := db.agents ++
            [{ uuid := db.nextUuid, agentId := agentId, userId := userId,
               agentName := agentId, status := .active, pauseUntil := none,
               killReason := none, killedAt := none, killedBy := none,
               isSuspended := false, monthlyCostLimit := none }],
          nextUuid := db.nextUuid + 1 })

/-- Build the `usage_events` row that `/record` and `/record-bulk` insert. -/
def mkUsageEvent (db : Db) (userId customerUuid agentUuid : Nat) (b : RecordBody)
    (cost : Int) : UsageEvent :=
  { userId := userId, customerUuid := customerUuid, agentUuid := agentUuid,
    eventName := b.eventName, vendor := b.vendor, model := b.model,
    costAmount := cost, requestHash := b.requestHash, isError := b.isError,
    eventMonth := b.eventMonth.getD db.currentMonth, createdAt := db.now }

/-- The `/record` pipeline: `enforceAgentBudget` middleware, Joi validation,
customer/agent creation, the deferred budget check, the kill-switch check
(which denies with the single code `AGENT_KILLED`), then the ledger insert and
the cache increment. -/
def recordUsage (db : Db) (body : RecordBody) (userId : Nat) : RecordResult × Db :=
  match enforceAgentBudget db body.agentId body.costAmount userId with
  | (.denied s code, db1) => (.denied s code, db1)
  | (mw, db1) =>
    if validateRecordBody body then
      match body.agentId, body.costAmount with
      | some agentId, some cost =>
        let (customerUuid, db2) := ensureCustomerExists db1 userId body.customerId
        let (agentUuid, db3) := ensureAgentExists db2 userId agentId
        let (post, db4) :=
          match mw with
          | .deferred => checkAgentBudgetAfterCreation db3 agentUuid cost userId
          | _ => (.allowed, db3)
        match post with
        | .failed => (.serverError, db4)
        | .deniedWith code => (.denied 403 code, db4)
        | .allowed =>
          let (isActive, db5) := is_agent_active db4 agentUuid userId
          if isActive then
            let ev := mkUsageEvent db5 userId customerUuid agentUuid body cost
            let db6 := { db5 with usageEvents := db5.usageEvents ++ [ev] }
            (.ok, incrementAgentSpend db6 agentId cost)
          else (.denied 403 "AGENT_KILLED", db5)
      | _, _ => (.validationError, db1)
    else (.validationError, db1)

/-! ### Kill-switch control routes (src/routes/killswitch.js) -/

/-- Result of a kill-switch control request: 200, a Joi 400, or a 404. -/
inductive ActionResult
  | ok
  | invalid
  | notFound
deriving DecidableEq, Repr

/-- Row predicate of the kill route's UPDATE:
`WHERE user_id = $1 AND agent_id = $3 AND status != 'killed'`. -/
def killMatch (userId : Nat) (agentId : String) (a : Agent) : Bool :=
  a.userId == userId && a.agentId == agentId && !(a.status == .killed)

/-- `/kill-agent/:agentId`: conditional UPDATE to `killed`; a zero-row update
is a 404 with no audit row; an effective one appends one `kill_agent` audit
row. -/
def killAgent (db : Db) (userId : Nat) (agentId : String) (reason : String) :
    ActionResult × Db :=
  if (db.agents.filter (killMatch userId agentId)).isEmpty then (.notFound, db)
  else
    let db1 := { db with agents := db.agents.map fun a =>
      if (killMatch userId agentId a) then
        { a with status := .killed, killedAt := some db.now,
                 killedBy := some userId, killReason := some reason }
      else a }
    (.ok, logKillSwitchEvent db1 "kill_agent" "agent" (some agentId) (some userId)
      "manual" reason)

/-- Row predicate of the pause route's UPDATE:
`WHERE user_id = $3 AND agent_id = $4 AND status = 'active'`. -/
def pauseMatch (userId : Nat) (agentId : String) (a : Agent) : Bool :=
  a.userId == userId && a.agentId == agentId && a.status == .active

/-- `/pause-agent/:agentId`: Joi bounds the duration to 1..10080 minutes; the
UPDATE sets `paused`, `pause_until = now + minutes`, and stores the reason in
`kill_reason`; zero rows is a 404 with no audit row. -/
def pauseAgent (db : Db) (userId : Nat) (agentId : String) (durationMinutes : Int)
    (reason : String) : ActionResult × Db :=
  if !(1 ≤ durationMinutes && durationMinutes ≤ 10080) then (.invalid, db)
  else if (db.agents.filter (pauseMatch userId agentId)).isEmpty then (.notFound, db)
  else
    let pauseUntil := db.now + durationMinutes * 60000
    let db1 := { db with agents := db.agents.map fun a =>
      if (pauseMatch userId agentId a) then
        { a with status := .paused, pauseUntil := some pauseUntil,
                 killReason := some reason }
      else a }
    (.ok, logKillSwitchEvent db1 "pause_agent" "agent" (some agentId) (some userId)
      "manual" reason)

/-- Row predicate of the revive route's UPDATE:
`WHERE user_id = $1 AND agent_id = $2 AND status IN ('killed', 'paused')`. -/
def reviveMatch (userId : Nat) (agentId : String) (a : Agent) : Bool :=
  a.userId == userId && a.agentId == agentId &&
    (a.status == .killed || a.status == .paused)

/-- `/revive-agent/:agentId`: the UPDATE resets `status`, `pause_until`,
`kill_reason`, `killed_at`, `killed_by` — and nothing else; zero rows is a 404
with no audit row. -/
def reviveAgent (db : Db) (userId : Nat) (agentId : String) (reason : String) :
    ActionResult × Db :=
  if (db.agents.filter (reviveMatch userId agentId)).isEmpty then (.notFound, db)
  else
    let db1 := { db with agents := db.agents.map fun a =>
      if (reviveMatch userId agentId a) then
        { a with status := .active, pauseUntil := none, killReason := none,
                 killedAt := none, killedBy := none }
      else a }
    (.ok, logKillSwitchEvent db1 "revive_agent" "agent" (some agentId) (some userId)
      "manual" reason)

/-- `/emergency-stop-all`: Joi requires `confirm` to be the literal `true`;
then the global row is set and one UPDATE kills every agent with
`status != 'killed'`; one global-scope audit row is appended. -/
def emergencyStopAll (db : Db) (userId : Nat) (reason : String) (confirm : Option Bool) :
    ActionResult × Db :=
  if confirm ≠ some true then (.invalid, db)
  else
    let db1 := { db with globalStop :=
      ⟨true, some db.now, some userId, some reason⟩ }
    let db2 := { db1 with agents := db1.agents.map fun a =>
      if a.status == .killed then a
      else
        { a with status := .killed, killedAt := some db.now,
                 killedBy := some userId,
                 killReason := some ("Emergency stop: " ++ reason) } }
    (.ok, logKillSwitchEvent db2 "emergency_stop_all" "global" none (some userId)
      "manual" reason)

/-- `/emergency-stop-disable`: clears the `global_kill_switch` row and appends
one audit row; no agent row is touched. -/
def emergencyStopDisable (db : Db) (userId : Nat) : ActionResult × Db :=
  let db1 := { db with globalStop := ⟨false, none, none, none⟩ }
  (.ok, logKillSwitchEvent db1 "emergency_stop_disabled" "global" none (some userId)
    "manual" "Emergency stop disabled")

/-! ### The background monitor's auto-kill (KillSwitchMonitor) -/

/-- The trigger fields `triggerAutoKill` reads. -/
structure TriggerInfo where
  userId : Nat
  triggerType : String
  triggerName : String
  thresholdValue : Int
deriving DecidableEq, Repr

/-- The violation fields `triggerAutoKill` reads. -/
structure ViolationInfo where
  agentExtId : String
  agentUuid : Nat
deriving DecidableEq, Repr

/-- The reason string `triggerAutoKill` builds. -/
def autoKillReason (t : TriggerInfo) : String :=
  "Auto-kill triggered: " ++ t.triggerName ++ " (" ++ t.triggerType ++
    ") exceeded threshold of " ++ toString t.thresholdValue

/-- The per-row effect of the auto-kill UPDATE
(`SET status = 'killed', killed_at = NOW(), kill_reason = $1
WHERE id = $2 AND status = 'active'`). -/
def autoKillMap (now : Int) (reason : String) (u : Nat) (a : Agent) : Agent :=
  if a.uuid == u && a.status == .active then
    { a with status := .killed, killedAt := some now, killReason := some reason }
  else a

/-- `KillSwitchMonitor.triggerAutoKill`: a conditional UPDATE
(`WHERE id = $2 AND status = 'active'`) followed by an *unconditional* insert
of one `kill_switch_events` audit row. -/
def triggerAutoKill (db : Db) (t : TriggerInfo) (v : ViolationInfo) : Db :=
  let reason := autoKillReason t
  let db1 := { db with agents := db.agents.map (autoKillMap db.now reason v.agentUuid) }
  logKillSwitchEvent db1 "kill_agent" "agent" (some v.agentExtId) (some t.userId)
    ("auto_" ++ t.triggerType) reason

/-- `SELECT ... FROM agents WHERE id = $1` (the joins of the monitor queries
have no user filter). -/
def findAgentAnyUser (db : Db) (u : Nat) : Option Agent :=
  db.agents.find? fun a => a.uuid == u

/-! ### Duplicate-loop detection (KillSwitchMonitor.checkInfiniteLoops) -/

/-- The GROUP BY key of the loop-detection query:
`(agent uuid, event_name, model, request_hash)`. -/
structure LoopSig where
  agentUuid : Nat
  eventName : String
  model : Option String
  requestHash : String
deriving DecidableEq, Repr

/-- The rows the loop-detection CTE ranges over: usage events from the last
10 minutes whose agent is currently `active` and whose metadata carries a
`request_hash`. -/
def loopCandidateEvents (db : Db) : List UsageEvent :=
  db.usageEvents.filter fun e =>
    decide (db.now - 600000 ≤ e.createdAt) &&
    (match findAgentAnyUser db e.agentUuid with
     | some a => a.status == .active
     | none => false) &&
    e.requestHash.isSome

/-- The GROUP BY key of one candidate event. -/
def sigOfEvent (e : UsageEvent) : Option LoopSig :=
  e.requestHash.map fun h => ⟨e.agentUuid, e.eventName, e.model, h⟩

/-- All signatures occurring among the candidate events. -/
def loopSigs (db : Db) : List LoopSig :=
  ((loopCandidateEvents db).filterMap sigOfEvent).dedup

/-- `COUNT(*)` of one signature's group. -/
def sigCount (db : Db) (s : LoopSig) : Nat :=
  ((loopCandidateEvents db).filterMap sigOfEvent).count s

/-- The groups the `HAVING COUNT(*) >= 50` clause keeps. -/
def loopViolations (db : Db) : List LoopSig :=
  (loopSigs db).filter fun s => 50 ≤ sigCount db s

/-- `checkInfiniteLoops`: compute the violating groups on the current
snapshot, then call `triggerAutoKill` for each (the trigger metadata —
`infinite_loop`, the group's count as threshold, the owning user — comes from
the snapshot row).  One fold step processes one violating group. -/
def loopKillStep (db : Db) (acc : Db) (s : LoopSig) : Db :=
  match findAgentAnyUser db s.agentUuid with
  | some a =>
      triggerAutoKill acc
        ⟨a.userId, "infinite_loop", "Auto Loop Detection", (sigCount db s : Int)⟩
        ⟨a.agentId, s.agentUuid⟩
  | none => acc

/-- `checkInfiniteLoops`, continued: fold the auto-kill over the violating
groups of the snapshot. -/
def checkInfiniteLoops (db : Db) : Db :=
  (loopViolations db).foldl (loopKillStep db) db

/-! ### The monitor's scheduling shell (KillSwitchMonitor.start/stop) -/

/-- The scheduling-relevant state of `KillSwitchMonitor`: whether a
`setInterval` timer exists, the `isRunning` flag, and how many
`performMonitoringChecks` invocations are currently in flight. -/
structure MonitorState where
  hasInterval : Bool
  isRunning : Bool
  activeTicks : Nat
deriving DecidableEq, Repr

/-- A fresh monitor (`monitoringInterval = null`, `isRunning = false`). -/
def monitorIdle : MonitorState := ⟨false, false, 0⟩

/-- Scheduling events: `start()` / `stop()` calls, a `setInterval` firing, and
one in-flight tick finishing. -/
inductive MonitorEvent
  | start
  | stop
  | intervalFire
  | tickFinish
deriving DecidableEq, Repr

/-- One scheduling step.  `start()` is a no-op when `isRunning`; otherwise it
runs an immediate check and installs the timer.  A timer firing invokes
`performMonitoringChecks` unconditionally — the code consults no flag about a
previous tick still being in flight. -/
def monitorStep (s : MonitorState) (e : MonitorEvent) : MonitorState :=
  match e with
  | .start =>
      if s.isRunning then s
      else { hasInterval := true, isRunning := true, activeTicks := s.activeTicks + 1 }
  | .stop => { s with hasInterval := false, isRunning := false }
  | .intervalFire =>
      if s.hasInterval then { s with activeTicks := s.activeTicks + 1 } else s
  | .tickFinish => { s with activeTicks := s.activeTicks - 1 }

/-- Run a sequence of scheduling events. -/
def monitorRun (s : MonitorState) (es : List MonitorEvent) : MonitorState :=
  es.foldl monitorStep s

/-! ### Bulk recording (src/routes/usage.js, `/record-bulk`) -/

/-- The Joi `bulkUsageSchema` constraints: 1..100 events, each valid. -/
def bulkEventsValid (events : List RecordBody) : Bool :=
  !events.isEmpty && events.length ≤ 100 && events.all validateRecordBody

/-- The per-event loop of `/record-bulk`.  Customer/agent creation and the
kill-switch check run on the shared pool (outside the transaction); the
usage-event inserts go through the transaction client and are collected for
the final COMMIT.  An inactive agent throws, which ROLLBACKs the inserts but
keeps the out-of-transaction effects: the second component is `none` then. -/
def recordBulkGo (userId : Nat) : List RecordBody → Db → Db × Option (List UsageEvent)
  | [], db => (db, some [])
  | e :: rest, db =>
    match e.agentId, e.costAmount with
    | some agentId, some cost =>
      let (customerUuid, db1) := ensureCustomerExists db userId e.customerId
      let (agentUuid, db2) := ensureAgentExists db1 userId agentId
      let (isActive, db3) := is_agent_active db2 agentUuid userId
      if isActive then
        let ev := mkUsageEvent db3 userId customerUuid agentUuid e cost
        match recordBulkGo userId rest db3 with
        | (db4, some evs) => (db4, some (ev :: evs))
        | (db4, none) => (db4, none)
      else (db3, none)
    | _, _ => (db, none)

/-- The parsed JSON body of a `/record-bulk` request.  The bulk schema knows
only the `events` key, but a client may also send top-level `agent_id` /
`cost_amount` fields — the `enforceAgentBudget` middleware mounted on the
route reads exactly those top-level fields. -/
structure BulkBody where
  agentId : Option String
  costAmount : Option Int
  events : List RecordBody
deriving DecidableEq, Repr

/-- The handler's Joi validation of the whole body against `bulkUsageSchema`:
Joi rejects unknown keys by default, so a top-level `agent_id` or
`cost_amount` fails validation, and the `events` array must hold 1..100 valid
events. -/
def bulkBodyValid (b : BulkBody) : Bool :=
  b.agentId.isNone && b.costAmount.isNone && bulkEventsValid b.events

/-- The `/record-bulk` handler body (after the middleware): Joi validation of
the whole body, then the transactional loop; on success the collected inserts
are committed to the ledger, on a thrown inactive-agent error the transaction
is rolled back and a 500 returned. -/
def recordBulkHandler (db : Db) (b : BulkBody) (userId : Nat) : RecordResult × Db :=
  if bulkBodyValid b then
    match recordBulkGo userId b.events db with
    | (db1, some evs) => (.ok, { db1 with usageEvents := db1.usageEvents ++ evs })
    | (db1, none) => (.serverError, db1)
  else (.validationError, db)

/-- The full `/record-bulk` route as mounted
(`router.post('/record-bulk', authenticateApiKey, enforceAgentBudget, ...)`):
the budget middleware runs first, reading the *top-level* `agent_id` and
`cost_amount` fields of the body, and only then the handler. -/
def recordBulk (db : Db) (b : BulkBody) (userId : Nat) : RecordResult × Db :=
  match enforceAgentBudget db b.agentId b.costAmount userId with
  | (.denied s code, db1) => (.denied s code, db1)
  | (_, db1) => recordBulkHandler db1 b userId

/-! ### Concrete fixtures used by counterexamples and witnesses -/

/-- A single active agent with a $10 monthly limit. -/
def agentX : Agent :=
  { uuid := 1, agentId := "X", userId := 1, agentName := "X", status := .active,
    pauseUntil := none, killReason := none, killedAt := none, killedBy := none,
    isSuspended := false, monthlyCostLimit := some 10 }

/-- A state holding only `agentX`, empty ledger and cache, no global stop. -/
def baseDb : Db :=
  { agents := [agentX], customers := [], usageEvents := [], killSwitchEvents := [],
    globalStop := ⟨false, none, none, none⟩, spendCache := [], now := 0,
    currentMonth := 0, nextUuid := 2 }

/-- A well-formed `/record` body for agent `X` with the given cost. -/
def mkBody (cost : Int) : RecordBody :=
  { eventName := "e", agentId := some "X", customerId := "c", vendor := "openai",
    model := none, costAmount := some cost, requestHash := none, isError := false,
    eventMonth := none }

/-! ### Generic helper lemmas -/

/-- `find?` commutes with a map that does not change the predicate's verdict. -/
lemma find?_map_congr {l : List Agent} {f : Agent → Agent} {p : Agent → Bool}
    (hp : ∀ x, p (f x) = p x) : (l.map f).find? p = (l.find? p).map f := by
  have hfp : p ∘ f = p := funext hp
  rw [List.find?_map, hfp]

/-- Fields `ensureCustomerExists` leaves untouched. -/
lemma ensureCustomerExists_frame (db : Db) (uid : Nat) (cid : String) :
    (ensureCustomerExists db uid cid).2.agents = db.agents ∧
    (ensureCustomerExists db uid cid).2.usageEvents = db.usageEvents ∧
    (ensureCustomerExists db uid cid).2.globalStop = db.globalStop ∧
    (ensureCustomerExists db uid cid).2.spendCache = db.spendCache ∧
    (ensureCustomerExists db uid cid).2.now = db.now ∧
    (ensureCustomerExists db uid cid).2.currentMonth = db.currentMonth ∧
    (ensureCustomerExists db uid cid).2.killSwitchEvents = db.killSwitchEvents := by
  unfold ensureCustomerExists
  cases findCustomer db cid uid <;> simp

/-- Fields `ensureAgentExists` leaves untouched. -/
lemma ensureAgentExists_frame (db : Db) (uid : Nat) (aid : String) :
    (ensureAgentExists db uid aid).2.customers = db.customers ∧
    (ensureAgentExists db uid aid).2.usageEvents = db.usageEvents ∧
    (ensureAgentExists db uid aid).2.globalStop = db.globalStop ∧
    (ensureAgentExists db uid aid).2.spendCache = db.spendCache ∧
    (ensureAgentExists db uid aid).2.now = db.now ∧
    (ensureAgentExists db uid aid).2.currentMonth = db.currentMonth ∧
    (ensureAgentExists db uid aid).2.killSwitchEvents = db.killSwitchEvents := by
  unfold ensureAgentExists
  cases findAgentExt db aid uid <;> simp

/-- Fields `is_agent_active` leaves untouched (it may only self-heal an agent
row). -/
lemma is_agent_active_frame (db : Db) (u uid : Nat) :
    (is_agent_active db u uid).2.customers = db.customers ∧
    (is_agent_active db u uid).2.usageEvents = db.usageEvents ∧
    (is_agent_active db u uid).2.globalStop = db.globalStop ∧
    (is_agent_active db u uid).2.spendCache = db.spendCache ∧
    (is_agent_active db u uid).2.now = db.now ∧
    (is_agent_active db u uid).2.currentMonth = db.currentMonth ∧
    (is_agent_active db u uid).2.nextUuid = db.nextUuid ∧
    (is_agent_active db u uid).2.killSwitchEvents = db.killSwitchEvents := by
  unfold is_agent_active selfHealAgent
  repeat' split
  all_goals exact ⟨rfl, rfl, rfl, rfl, rfl, rfl, rfl, rfl⟩

/-- Fields `enforceAgentBudget` leaves untouched (it may only backfill the
cache and set an agent's suspension flag). -/
lemma enforceAgentBudget_frame (db : Db) (aid : Option String) (c : Option Int) (uid : Nat) :
    (enforceAgentBudget db aid c uid).2.customers = db.customers ∧
    (enforceAgentBudget db aid c uid).2.usageEvents = db.usageEvents ∧
    (enforceAgentBudget db aid c uid).2.globalStop = db.globalStop ∧
    (enforceAgentBudget db aid c uid).2.now = db.now ∧
    (enforceAgentBudget db aid c uid).2.currentMonth = db.currentMonth ∧
    (enforceAgentBudget db aid c uid).2.nextUuid = db.nextUuid ∧
    (enforceAgentBudget db aid c uid).2.killSwitchEvents = db.killSwitchEvents := by
  unfold enforceAgentBudget suspendAgentByUuid incrementAgentSpend
  dsimp only
  repeat' split
  all_goals exact ⟨rfl, rfl, rfl, rfl, rfl, rfl, rfl⟩

/-- Fields `checkAgentBudgetAfterCreation` leaves untouched. -/
lemma checkAgentBudgetAfterCreation_frame (db : Db) (u : Nat) (c : Int) (uid : Nat) :
    (checkAgentBudgetAfterCreation db u c uid).2.customers = db.customers ∧
    (checkAgentBudgetAfterCreation db u c uid).2.usageEvents = db.usageEvents ∧
    (checkAgentBudgetAfterCreation db u c uid).2.globalStop = db.globalStop ∧
    (checkAgentBudgetAfterCreation db u c uid).2.spendCache = db.spendCache ∧
    (checkAgentBudgetAfterCreation db u c uid).2.now = db.now ∧
    (checkAgentBudgetAfterCreation db u c uid).2.currentMonth = db.currentMonth ∧
    (checkAgentBudgetAfterCreation db u c uid).2.nextUuid = db.nextUuid ∧
    (checkAgentBudgetAfterCreation db u c uid).2.killSwitchEvents = db.killSwitchEvents := by
  unfold checkAgentBudgetAfterCreation suspendAgentByUuid
  repeat' split
  all_goals exact ⟨rfl, rfl, rfl, rfl, rfl, rfl, rfl, rfl⟩

/-- Under an active global stop, `is_agent_active` is `false` for every agent
and performs no state change: the global check comes first and returns
immediately. -/
lemma is_agent_active_gs (db : Db) (u uid : Nat)
    (h : db.globalStop.isEmergencyStopped = true) :
    is_agent_active db u uid = (false, db) := by
  unfold is_agent_active
  simp [h]

/-! ### Claims C2 and C6 -/

/-- C2, as stated, is false on the code: with limit $10 and spend $0, the first
$6 request is allowed and the second is denied `BUDGET_LIMIT_EXCEEDED`, but the
agent does **not** transition to `killed` (its status stays `active`; only the
`is_suspended` flag is set), and the third request is **not** denied with
`AGENT_KILLED`. -/
theorem C2_counterexample :
    (recordUsage baseDb (mkBody 6) 1).1 = .ok ∧
    (recordUsage (recordUsage baseDb (mkBody 6) 1).2 (mkBody 6) 1).1 =
      .denied 403 "BUDGET_LIMIT_EXCEEDED" ∧
    ¬ ((findAgentExt (recordUsage (recordUsage baseDb (mkBody 6) 1).2 (mkBody 6) 1).2
        "X" 1).map Agent.status = some .killed) ∧
    ¬ ((recordUsage (recordUsage (recordUsage baseDb (mkBody 6) 1).2 (mkBody 6) 1).2
        (mkBody 1) 1).1 = .denied 403 "AGENT_KILLED") := by
  decide

/-- C2 amended: with limit $10 and spend $0, request 1 ($6) is allowed;
request 2 ($6) is denied `BUDGET_LIMIT_EXCEEDED` and the agent is
budget-suspended (`is_suspended = true`, status still `active`); request 3 is
then denied with code `AGENT_SUSPENDED`, not the budget code. -/
theorem C2_scenario :
    (recordUsage baseDb (mkBody 6) 1).1 = .ok ∧
    (recordUsage (recordUsage baseDb (mkBody 6) 1).2 (mkBody 6) 1).1 =
      .denied 403 "BUDGET_LIMIT_EXCEEDED" ∧
    (findAgentExt (recordUsage (recordUsage baseDb (mkBody 6) 1).2 (mkBody 6) 1).2
      "X" 1).map (fun a => (a.status, a.isSuspended)) = some (.active, true) ∧
    (recordUsage (recordUsage (recordUsage baseDb (mkBody 6) 1).2 (mkBody 6) 1).2
      (mkBody 1) 1).1 = .denied 403 "AGENT_SUSPENDED" := by
  decide

/-- C6, as stated, is false on the code: the monitor's ticks can overlap —
after `start()` an interval firing while the initial tick is still in flight
leaves two concurrent `performMonitoringChecks` invocations, so "at most one
tick executes at any time" fails. -/
theorem C6_counterexample :
    ¬ (∀ es : List MonitorEvent, (monitorRun monitorIdle es).activeTicks ≤ 1) := by
  intro h
  exact absurd (h [.start, .intervalFire]) (by decide)

/-- C6 amended: the only overlap guard in `KillSwitchMonitor` protects
`start()` itself (calling `start` while `isRunning` is a no-op, so at most one
interval timer exists); an interval firing is *not* guarded — it always starts
one more concurrent tick, so a tick due while the previous one is still
running is executed, not skipped. -/
theorem C6_monitor :
    (∀ s : MonitorState, s.isRunning = true → monitorStep s .start = s) ∧
    (∀ s : MonitorState, s.hasInterval = true →
      (monitorStep s .intervalFire).activeTicks = s.activeTicks + 1) := by
  constructor
  · intro s hs
    simp [monitorStep, hs]
  · intro s hs
    simp [monitorStep, hs]

/-- Witness for the amended C6 theorem at a concrete running state. -/
theorem C6_witness :
    monitorStep ⟨true, true, 1⟩ .start = ⟨true, true, 1⟩ ∧
    (monitorStep ⟨true, true, 1⟩ .intervalFire).activeTicks = 2 :=
  ⟨C6_monitor.1 ⟨true, true, 1⟩ rfl, C6_monitor.2 ⟨true, true, 1⟩ rfl⟩

/-! ### Claim C1 -/

/-- Fixture: `baseDb` with the global emergency stop set. -/
def baseDbStopped : Db :=
  { baseDb with globalStop := ⟨true, some 0, some 1, some "stop"⟩ }

/-- C1, as stated, is false on the code: with the global stop active, an
admission request for an active agent is denied with the generic code
`AGENT_KILLED`, not `GLOBAL_STOPPED` (no such code exists), and the budget
check is not skipped — the budget middleware runs before the kill-switch
check, so an over-limit request is denied `BUDGET_LIMIT_EXCEEDED` even while
the global stop is active. -/
theorem C1_counterexample :
    baseDbStopped.globalStop.isEmergencyStopped = true ∧
    (recordUsage baseDbStopped (mkBody 6) 1).1 = .denied 403 "AGENT_KILLED" ∧
    ¬ ((recordUsage baseDbStopped (mkBody 6) 1).1 = .denied 403 "GLOBAL_STOPPED") ∧
    (recordUsage baseDbStopped (mkBody 60) 1).1 = .denied 403 "BUDGET_LIMIT_EXCEEDED" := by
  decide

/-- C1 amended: while the global stop is active no admission request is ever
accepted and nothing is appended to the ledger, for every agent and state;
a request that passes the budget middleware and validation is denied with the
single generic code `AGENT_KILLED` (the check order is budget middleware
first, then the kill-switch check, so budget denials can still surface). -/
theorem C1_global_stop (db : Db) (body : RecordBody) (uid : Nat)
    (hgs : db.globalStop.isEmergencyStopped = true) :
    (recordUsage db body uid).1 ≠ .ok ∧
    (recordUsage db body uid).2.usageEvents = db.usageEvents ∧
    (∀ ag, (enforceAgentBudget db body.agentId body.costAmount uid).1 = .passed ag →
      validateRecordBody body = true →
      (recordUsage db body uid).1 = .denied 403 "AGENT_KILLED") := by
  have hfe := enforceAgentBudget_frame db body.agentId body.costAmount uid
  rcases hmw : enforceAgentBudget db body.agentId body.costAmount uid with ⟨mw, db1⟩
  rw [hmw] at hfe
  obtain ⟨-, hu1, hg1, -, -, -, -⟩ := hfe
  simp only at hu1 hg1
  unfold recordUsage
  rw [hmw]
  cases mw with
  | denied s code =>
    refine ⟨by simp, hu1, ?_⟩
    intro ag hpass
    simp at hpass
  | deferred =>
    by_cases hv : validateRecordBody body = true
    · cases hba : body.agentId with
      | none => simp [validateRecordBody, hba] at hv
      | some aid =>
        cases hbc : body.costAmount with
        | none => simp [validateRecordBody, hba, hbc] at hv
        | some cost =>
          have hfc := ensureCustomerExists_frame db1 uid body.customerId
          rcases hec : ensureCustomerExists db1 uid body.customerId with ⟨cu, db2⟩
          rw [hec] at hfc
          obtain ⟨-, hu2, hg2, -, -, -, -⟩ := hfc
          simp only at hu2 hg2
          have hfa := ensureAgentExists_frame db2 uid aid
          rcases hea : ensureAgentExists db2 uid aid with ⟨au, db3⟩
          rw [hea] at hfa
          obtain ⟨-, hu3, hg3, -, -, -, -⟩ := hfa
          simp only at hu3 hg3
          have hfp := checkAgentBudgetAfterCreation_frame db3 au cost uid
          rcases hpc : checkAgentBudgetAfterCreation db3 au cost uid with ⟨post, db4⟩
          rw [hpc] at hfp
          obtain ⟨-, hu4, hg4, -, -, -, -⟩ := hfp
          simp only at hu4 hg4
          have hg4' : db4.globalStop.isEmergencyStopped = true := by
            rw [hg4, hg3, hg2, hg1, hgs]
          have hact := is_agent_active_gs db4 au uid hg4'
          cases post with
          | allowed =>
            simp only [hv, if_true, hec, hea, hpc, hact, Bool.false_eq_true, if_false]
            refine ⟨by simp, ?_, ?_⟩
            · rw [hu4, hu3, hu2, hu1]
            · intro ag hpass
              simp at hpass
          | deniedWith code =>
            simp only [hv, if_true, hec, hea, hpc]
            refine ⟨by simp, ?_, ?_⟩
            · rw [hu4, hu3, hu2, hu1]
            · intro ag hpass
              simp at hpass
          | failed =>
            simp only [hv, if_true, hec, hea, hpc]
            refine ⟨by simp, ?_, ?_⟩
            · rw [hu4, hu3, hu2, hu1]
            · intro ag hpass
              simp at hpass
    · simp only [Bool.not_eq_true] at hv
      simp only [hv, Bool.false_eq_true, if_false]
      refine ⟨by simp, hu1, ?_⟩
      intro ag hpass hval
      exact hval.elim
  | passed ag0 =>
    by_cases hv : validateRecordBody body = true
    · cases hba : body.agentId with
      | none => simp [validateRecordBody, hba] at hv
      | some aid =>
        cases hbc : body.costAmount with
        | none => simp [validateRecordBody, hba, hbc] at hv
        | some cost =>
          have hfc := ensureCustomerExists_frame db1 uid body.customerId
          rcases hec : ensureCustomerExists db1 uid body.customerId with ⟨cu, db2⟩
          rw [hec] at hfc
          obtain ⟨-, hu2, hg2, -, -, -, -⟩ := hfc
          simp only at hu2 hg2
          have hfa := ensureAgentExists_frame db2 uid aid
          rcases hea : ensureAgentExists db2 uid aid with ⟨au, db3⟩
          rw [hea] at hfa
          obtain ⟨-, hu3, hg3, -, -, -, -⟩ := hfa
          simp only at hu3 hg3
          have hg3' : db3.globalStop.isEmergencyStopped = true := by
            rw [hg3, hg2, hg1, hgs]
          have hact := is_agent_active_gs db3 au uid hg3'
          simp only [hv, if_true, hec, hea, hact, Bool.false_eq_true, if_false]
          refine ⟨by simp, ?_, ?_⟩
          · rw [hu3, hu2, hu1]
          · intro ag hpass hval
            simp
    · simp only [Bool.not_eq_true] at hv
      simp only [hv, Bool.false_eq_true, if_false]
      refine ⟨by simp, hu1, ?_⟩
      intro ag hpass hval
      exact hval.elim

/-- Witness for the amended C1 theorem: the concrete globally-stopped state. -/
theorem C1_witness :
    (recordUsage baseDbStopped (mkBody 6) 1).1 ≠ .ok ∧
    (recordUsage baseDbStopped (mkBody 6) 1).2.usageEvents = baseDbStopped.usageEvents ∧
    (∀ ag, (enforceAgentBudget baseDbStopped (mkBody 6).agentId (mkBody 6).costAmount 1).1 =
        .passed ag →
      validateRecordBody (mkBody 6) = true →
      (recordUsage baseDbStopped (mkBody 6) 1).1 = .denied 403 "AGENT_KILLED") :=
  C1_global_stop baseDbStopped (mkBody 6) 1 (by decide)

/-! ### Claim C5 -/

/-- Lookups by external key only read the `agents` column. -/
lemma findAgentExt_congr {db db' : Db} (h : db'.agents = db.agents) (aid : String)
    (uid : Nat) : findAgentExt db' aid uid = findAgentExt db aid uid := by
  unfold findAgentExt
  rw [h]

/-- Lookups by uuid only read the `agents` column. -/
lemma findAgentByUuid_congr {db db' : Db} (h : db'.agents = db.agents) (u uid : Nat) :
    findAgentByUuid db' u uid = findAgentByUuid db u uid := by
  unfold findAgentByUuid
  rw [h]

/-- Self-healing agent `u` turns a uuid-lookup result into its healed form. -/
lemma selfHeal_findAgentByUuid (db : Db) (u uid : Nat) (a : Agent)
    (h : findAgentByUuid db u uid = some a) :
    findAgentByUuid (selfHealAgent db u) u uid =
      some { a with status := .active, pauseUntil := none } := by
  unfold findAgentByUuid at h ⊢
  have hpa := List.find?_some h
  simp only [Bool.and_eq_true, beq_iff_eq] at hpa
  have hp : ∀ x : Agent,
      ((fun x : Agent => x.uuid == u && x.userId == uid)
        (if x.uuid == u then { x with status := AgentStatus.active, pauseUntil := none }
         else x)) =
      ((fun x : Agent => x.uuid == u && x.userId == uid) x) := by
    intro x
    by_cases hxu : (x.uuid == u) = true <;> simp [hxu]
  unfold selfHealAgent
  rw [find?_map_congr hp, h]
  simp [hpa.1]

/-- Self-healing agent `u` acts on an external-key lookup result pointwise. -/
lemma selfHeal_findAgentExt (db : Db) (u : Nat) (aid : String) (uid : Nat) (a : Agent)
    (h : findAgentExt db aid uid = some a) :
    findAgentExt (selfHealAgent db u) aid uid =
      some (if a.uuid == u then { a with status := .active, pauseUntil := none }
            else a) := by
  unfold findAgentExt at h ⊢
  have hp : ∀ x : Agent,
      ((fun x : Agent => x.agentId == aid && x.userId == uid)
        (if x.uuid == u then { x with status := AgentStatus.active, pauseUntil := none }
         else x)) =
      ((fun x : Agent => x.agentId == aid && x.userId == uid) x) := by
    intro x
    by_cases hxu : (x.uuid == u) = true <;> simp [hxu]
  unfold selfHealAgent
  rw [find?_map_congr hp, h]
  simp

/-- A found agent with no suspension and no limit passes the middleware with
no state change. -/
lemma enforce_passed_nolimit (db : Db) (aid : String) (uid : Nat) (c : Option Int)
    (a : Agent) (hf : findAgentExt db aid uid = some a) (hs : a.isSuspended = false)
    (hl : a.monthlyCostLimit = none) :
    enforceAgentBudget db (some aid) c uid = (.passed a, db) := by
  unfold enforceAgentBudget
  dsimp only
  rw [hf]
  simp [hs, hl]

/-- Fixture: an agent paused until a future instant (state clock is 0). -/
def agentPf : Agent :=
  { uuid := 1, agentId := "Pf", userId := 1, agentName := "Pf", status := .paused,
    pauseUntil := some 5000, killReason := some "r", killedAt := none, killedBy := none,
    isSuspended := false, monthlyCostLimit := none }

/-- Fixture: an agent whose pause expired in the past (state clock is 0). -/
def agentPe : Agent :=
  { uuid := 2, agentId := "Pe", userId := 1, agentName := "Pe", status := .paused,
    pauseUntil := some (-5000), killReason := some "r", killedAt := none, killedBy := none,
    isSuspended := false, monthlyCostLimit := none }

/-- Fixture: state holding the two paused agents. -/
def dbPaused : Db :=
  { agents := [agentPf, agentPe], customers := [], usageEvents := [],
    killSwitchEvents := [], globalStop := ⟨false, none, none, none⟩, spendCache := [],
    now := 0, currentMonth := 0, nextUuid := 3 }

/-- A well-formed `/record` body for the given agent and cost. -/
def bodyFor (aid : String) (cost : Int) : RecordBody :=
  { eventName := "e", agentId := some aid, customerId := "c", vendor := "openai",
    model := none, costAmount := some cost, requestHash := none, isError := false,
    eventMonth := none }

/-- C5, as stated, is false on the code: a request for an agent paused into
the future is denied with the generic code `AGENT_KILLED`; no `AGENT_PAUSED`
code exists. -/
theorem C5_counterexample :
    (findAgentExt dbPaused "Pf" 1).map Agent.status = some .paused ∧
    (recordUsage dbPaused (bodyFor "Pf" 3) 1).1 = .denied 403 "AGENT_KILLED" ∧
    ¬ ((recordUsage dbPaused (bodyFor "Pf" 3) 1).1 = .denied 403 "AGENT_PAUSED") := by
  decide

/-- C5 amended: for a paused agent the Admission Gate denies while
`pause_until` lies in the future — with the generic code `AGENT_KILLED`, not
`AGENT_PAUSED` — and once `pause_until` has elapsed the same check self-heals
the agent to `active` (clearing `pause_until`) with no operator action and the
request proceeds (it is recorded). -/
theorem C5_pause (db : Db) (uid : Nat) (a : Agent) (t : Int)
    (hgs : db.globalStop.isEmergencyStopped = false)
    (hfind : findAgentByUuid db a.uuid uid = some a)
    (hst : a.status = .paused) (hpu : a.pauseUntil = some t) :
    (db.now < t → is_agent_active db a.uuid uid = (false, db)) ∧
    (t ≤ db.now →
      (is_agent_active db a.uuid uid).1 = true ∧
      findAgentByUuid (is_agent_active db a.uuid uid).2 a.uuid uid =
        some { a with status := .active, pauseUntil := none }) ∧
    (∀ (body : RecordBody) (aid : String) (cost : Int),
      body.agentId = some aid → body.costAmount = some cost → 0 < cost →
      findAgentExt db aid uid = some a →
      a.isSuspended = false → a.monthlyCostLimit = none →
      (db.now < t → (recordUsage db body uid).1 = .denied 403 "AGENT_KILLED") ∧
      (t ≤ db.now →
        (recordUsage db body uid).1 = .ok ∧
        findAgentExt (recordUsage db body uid).2 aid uid =
          some { a with status := .active, pauseUntil := none })) := by
  have hgate_f : db.now < t → is_agent_active db a.uuid uid = (false, db) := by
    intro hlt
    unfold is_agent_active
    rw [hgs, hfind]
    simp [hst, hpu, hlt]
  have hgate_e : t ≤ db.now → is_agent_active db a.uuid uid = (true, selfHealAgent db a.uuid) := by
    intro hle
    have hnlt : ¬ db.now < t := not_lt.mpr hle
    unfold is_agent_active
    rw [hgs, hfind]
    simp [hst, hpu, hnlt]
  refine ⟨hgate_f, ?_, ?_⟩
  · intro hle
    rw [hgate_e hle]
    exact ⟨rfl, selfHeal_findAgentByUuid db a.uuid uid a hfind⟩
  · intro body aid cost hbaid hbcost hcpos hfx hs hl
    have henf : enforceAgentBudget db body.agentId body.costAmount uid = (.passed a, db) := by
      rw [hbaid]
      exact enforce_passed_nolimit db aid uid body.costAmount a hfx hs hl
    have hval : validateRecordBody body = true := by
      simp [validateRecordBody, hbaid, hbcost, hcpos]
    have hfc := ensureCustomerExists_frame db uid body.customerId
    rcases hec : ensureCustomerExists db uid body.customerId with ⟨cu, db2⟩
    rw [hec] at hfc
    obtain ⟨ha2, hu2, hg2, hs2, hn2, hm2, hk2⟩ := hfc
    simp only at ha2 hu2 hg2 hs2 hn2 hm2 hk2
    have hfx2 : findAgentExt db2 aid uid = some a := by
      rw [findAgentExt_congr ha2]
      exact hfx
    have hea : ensureAgentExists db2 uid aid = (a.uuid, db2) := by
      unfold ensureAgentExists
      rw [hfx2]
    have hfind2 : findAgentByUuid db2 a.uuid uid = some a := by
      rw [findAgentByUuid_congr ha2]
      exact hfind
    have hgate2_f : db.now < t → is_agent_active db2 a.uuid uid = (false, db2) := by
      intro hlt
      unfold is_agent_active
      rw [hg2, hgs, hfind2]
      simp [hst, hpu, hn2, hlt]
    have hgate2_e : t ≤ db.now →
        is_agent_active db2 a.uuid uid = (true, selfHealAgent db2 a.uuid) := by
      intro hle
      have hnlt : ¬ db.now < t := not_lt.mpr hle
      unfold is_agent_active
      rw [hg2, hgs, hfind2]
      simp [hst, hpu, hn2, hnlt]
    constructor
    · intro hlt
      unfold recordUsage
      rw [henf]
      simp only [hval, if_true, hbaid, hbcost, hec, hea, hgate2_f hlt]
      simp
    · intro hle
      unfold recordUsage
      rw [henf]
      simp only [hval, if_true, hbaid, hbcost, hec, hea, hgate2_e hle]
      refine ⟨trivial, ?_⟩
      have hfx3 := selfHeal_findAgentExt db2 a.uuid aid uid a hfx2
      simp only [beq_self_eq_true, if_true] at hfx3
      simp only [incrementAgentSpend]
      unfold findAgentExt at hfx3 ⊢
      exact hfx3

/-- Witness for the amended C5 theorem on the two concrete paused agents. -/
theorem C5_witness :
    is_agent_active dbPaused agentPf.uuid 1 = (false, dbPaused) ∧
    ((is_agent_active dbPaused agentPe.uuid 1).1 = true ∧
      findAgentByUuid (is_agent_active dbPaused agentPe.uuid 1).2 agentPe.uuid 1 =
        some { agentPe with status := .active, pauseUntil := none }) ∧
    (recordUsage dbPaused (bodyFor "Pf" 3) 1).1 = .denied 403 "AGENT_KILLED" ∧
    ((recordUsage dbPaused (bodyFor "Pe" 3) 1).1 = .ok ∧
      findAgentExt (recordUsage dbPaused (bodyFor "Pe" 3) 1).2 "Pe" 1 =
        some { agentPe with status := .active, pauseUntil := none }) := by
  have hf := C5_pause dbPaused 1 agentPf 5000 (by decide) (by decide) (by decide) (by decide)
  have he := C5_pause dbPaused 1 agentPe (-5000) (by decide) (by decide) (by decide)
    (by decide)
  refine ⟨hf.1 (by decide), he.2.1 (by decide), ?_, ?_⟩
  · exact (hf.2.2 (bodyFor "Pf" 3) "Pf" 3 rfl rfl (by decide) (by decide) (by decide)
      (by decide)).1 (by decide)
  · exact (he.2.2 (bodyFor "Pe" 3) "Pe" 3 rfl rfl (by decide) (by decide) (by decide)
      (by decide)).2 (by decide)

/-! ### Claim C3 -/

/-- Fixture: an already-killed agent. -/
def agentK : Agent :=
  { uuid := 1, agentId := "K", userId := 1, agentName := "K", status := .killed,
    pauseUntil := none, killReason := some "dead", killedAt := some 0, killedBy := some 1,
    isSuspended := false, monthlyCostLimit := none }

/-- Fixture: state holding only the killed agent. -/
def dbKilled : Db :=
  { agents := [agentK], customers := [], usageEvents := [], killSwitchEvents := [],
    globalStop := ⟨false, none, none, none⟩, spendCache := [], now := 0,
    currentMonth := 0, nextUuid := 2 }

/-- Fixture: the trigger metadata the loop detector passes to the auto-kill. -/
def trigK : TriggerInfo := ⟨1, "infinite_loop", "Auto Loop Detection", 50⟩

/-- Fixture: a violation naming the killed agent. -/
def violK : ViolationInfo := ⟨"K", 1⟩

/-- C3, as stated, is false on the code: when the trigger evaluator's
`triggerAutoKill` hits an already-killed agent, the agent rows are unchanged
(no effective transition) and yet an audit record **is** appended — the audit
insert is unconditional, so a no-op kill still produces an extra audit row. -/
theorem C3_counterexample :
    (findAgentExt dbKilled "K" 1).map Agent.status = some .killed ∧
    (triggerAutoKill dbKilled trigK violK).agents = dbKilled.agents ∧
    ¬ ((triggerAutoKill dbKilled trigK violK).killSwitchEvents =
        dbKilled.killSwitchEvents) := by
  decide

/-- C3 amended: each effective kill/pause/revive through the manual routes
appends exactly one audit record, and an ineffective manual kill (agent
already killed) is a complete no-op (404, no state change, no audit row).
The trigger evaluator's kill action also appends exactly one audit record per
invocation, but it does so unconditionally: on an agent that is not active it
changes no agent row yet still appends the audit record (a logged no-op). -/
theorem C3_audit :
    (∀ (db : Db) (uid : Nat) (aid reason : String) (db' : Db),
      killAgent db uid aid reason = (.ok, db') →
      db'.killSwitchEvents = db.killSwitchEvents ++
        [⟨"kill_agent", "agent", some aid, some uid, "manual", reason⟩]) ∧
    (∀ (db : Db) (uid : Nat) (aid reason : String),
      (∀ a ∈ db.agents, killMatch uid aid a = false) →
      killAgent db uid aid reason = (.notFound, db)) ∧
    (∀ (db : Db) (uid : Nat) (aid reason : String) (d : Int) (db' : Db),
      pauseAgent db uid aid d reason = (.ok, db') →
      db'.killSwitchEvents = db.killSwitchEvents ++
        [⟨"pause_agent", "agent", some aid, some uid, "manual", reason⟩]) ∧
    (∀ (db : Db) (uid : Nat) (aid reason : String) (db' : Db),
      reviveAgent db uid aid reason = (.ok, db') →
      db'.killSwitchEvents = db.killSwitchEvents ++
        [⟨"revive_agent", "agent", some aid, some uid, "manual", reason⟩]) ∧
    (∀ (db : Db) (t : TriggerInfo) (v : ViolationInfo),
      (triggerAutoKill db t v).killSwitchEvents = db.killSwitchEvents ++
        [⟨"kill_agent", "agent", some v.agentExtId, some t.userId,
          "auto_" ++ t.triggerType, autoKillReason t⟩] ∧
      ((∀ a ∈ db.agents, a.uuid = v.agentUuid → a.status ≠ .active) →
        (triggerAutoKill db t v).agents = db.agents)) := by
  refine ⟨?_, ?_, ?_, ?_, ?_⟩
  · intro db uid aid reason db' h
    unfold killAgent at h
    split at h
    · simp at h
    · simp only [Prod.mk.injEq] at h
      rw [← h.2]
      simp [logKillSwitchEvent]
  · intro db uid aid reason h
    unfold killAgent
    rw [if_pos]
    simp only [List.isEmpty_iff]
    exact List.filter_eq_nil_iff.mpr fun a ha => by simp [h a ha]
  · intro db uid aid reason d db' h
    unfold pauseAgent at h
    split at h
    · simp at h
    · split at h
      · simp at h
      · simp only [Prod.mk.injEq] at h
        rw [← h.2]
        simp [logKillSwitchEvent]
  · intro db uid aid reason db' h
    unfold reviveAgent at h
    split at h
    · simp at h
    · simp only [Prod.mk.injEq] at h
      rw [← h.2]
      simp [logKillSwitchEvent]
  · intro db t v
    constructor
    · simp [triggerAutoKill, logKillSwitchEvent]
    · intro h
      unfold triggerAutoKill logKillSwitchEvent
      simp only
      have : ∀ a ∈ db.agents, autoKillMap db.now (autoKillReason t) v.agentUuid a = a := by
        intro a ha
        unfold autoKillMap
        have hcond : (a.uuid == v.agentUuid && a.status == .active) = false := by
          by_cases hu : a.uuid = v.agentUuid
          · have := h a ha hu
            simp [hu, this]
          · simp [hu]
        rw [hcond]
        simp
      rw [List.map_congr_left this]
      simp

/-- Witness for the amended C3 theorem: an effective manual kill appends one
audit row; killing the killed agent is a 404 no-op; the auto-kill on the
killed agent appends its audit row while leaving the agent rows unchanged. -/
theorem C3_witness :
    (killAgent baseDb 1 "X" "r").2.killSwitchEvents = baseDb.killSwitchEvents ++
      [⟨"kill_agent", "agent", some "X", some 1, "manual", "r"⟩] ∧
    killAgent dbKilled 1 "K" "r" = (.notFound, dbKilled) ∧
    (triggerAutoKill dbKilled trigK violK).killSwitchEvents =
      dbKilled.killSwitchEvents ++
      [⟨"kill_agent", "agent", some "K", some 1, "auto_infinite_loop",
        autoKillReason trigK⟩] ∧
    (triggerAutoKill dbKilled trigK violK).agents = dbKilled.agents := by
  refine ⟨?_, ?_, ?_, ?_⟩
  · exact C3_audit.1 baseDb 1 "X" "r" (killAgent baseDb 1 "X" "r").2 (by decide)
  · exact C3_audit.2.1 dbKilled 1 "K" "r" (by decide)
  · exact (C3_audit.2.2.2.2 dbKilled trigK violK).1
  · exact (C3_audit.2.2.2.2 dbKilled trigK violK).2 (by decide)

/-! ### Claim C4 -/

/-- `hIncrByFloat` adds to the existing field value, treating a missing field
as 0. -/
lemma cacheGet_cacheIncr (c : List ((Int × String) × Int)) (k : Int × String) (v : Int) :
    cacheGet (cacheIncr c k v) k = some ((cacheGet c k).getD 0 + v) := by
  induction c with
  | nil => simp [cacheIncr, cacheGet]
  | cons hd tl ih =>
    obtain ⟨k', v'⟩ := hd
    by_cases hk : k' = k
    · simp [cacheIncr, cacheGet, hk]
    · simp [cacheIncr, cacheGet, hk, ih]

/-- Incrementing the cache adds to the cached spend read. -/
lemma getAgentSpend_incr (db : Db) (aid : String) (x : Int) :
    getAgentSpend (incrementAgentSpend db aid x) aid = getAgentSpend db aid + x := by
  unfold getAgentSpend incrementAgentSpend
  simp [cacheGet_cacheIncr]

/-- Suspending an agent does not touch the spend cache. -/
lemma getAgentSpend_suspend (db : Db) (u : Nat) (aid : String) :
    getAgentSpend (suspendAgentByUuid db u) aid = getAgentSpend db aid := by
  unfold getAgentSpend suspendAgentByUuid
  simp

/-- Fixture: an active agent with a $100 limit. -/
def agentC : Agent :=
  { uuid := 1, agentId := "C", userId := 1, agentName := "C", status := .active,
    pauseUntil := none, killReason := none, killedAt := none, killedBy := none,
    isSuspended := false, monthlyCostLimit := some 100 }

/-- Fixture: one current-month ledger event of cost 7 for that agent. -/
def eventC : UsageEvent :=
  { userId := 1, customerUuid := 1, agentUuid := 1, eventName := "e", vendor := "v",
    model := none, costAmount := 7, requestHash := none, isError := false,
    eventMonth := 0, createdAt := 0 }

/-- Fixture: ledger spend 7, no cache entry at all. -/
def dbCacheMissing : Db :=
  { agents := [agentC], customers := [], usageEvents := [eventC], killSwitchEvents := [],
    globalStop := ⟨false, none, none, none⟩, spendCache := [], now := 0,
    currentMonth := 0, nextUuid := 2 }

/-- Fixture: same state but with an explicit zero-valued cache entry. -/
def dbCacheZero : Db :=
  { dbCacheMissing with spendCache := [((0, "C"), 0)] }

/-- C4, as stated, is false on the code: the gate does **not** distinguish a
missing cache entry from a legitimately zero one — `getAgentSpend` collapses
both to a read of 0 — and its behaviour (decision and final state) is
identical on two states that differ exactly in that respect. -/
theorem C4_counterexample :
    dbCacheZero ≠ dbCacheMissing ∧
    cacheGet dbCacheZero.spendCache (0, "C") = some 0 ∧
    cacheGet dbCacheMissing.spendCache (0, "C") = none ∧
    enforceAgentBudget dbCacheZero (some "C") (some 2) 1 =
      enforceAgentBudget dbCacheMissing (some "C") (some 2) 1 := by
  decide

/-- C4 amended: on a cached-spend read of 0 (missing entry and zero entry are
indistinguishable) the gate aggregates the agent's current-period spend from
the ledger and, when positive, backfills the cache by incrementing the
zero-reading entry — so afterwards the cached spend equals the ledger total
exactly (no double counting), and the decision compares limit against
ledger total plus requested cost. -/
theorem C4_backfill (db : Db) (aid : String) (uid : Nat) (cost : Int) (a : Agent)
    (limit : Int)
    (hf : findAgentExt db aid uid = some a) (hs : a.isSuspended = false)
    (hl : a.monthlyCostLimit = some limit)
    (hmiss : getAgentSpend db aid = 0)
    (hpos : 0 < ledgerMonthSpend db a.uuid) :
    getAgentSpend (enforceAgentBudget db (some aid) (some cost) uid).2 aid =
      ledgerMonthSpend db a.uuid ∧
    (enforceAgentBudget db (some aid) (some cost) uid).1 =
      (if limit < ledgerMonthSpend db a.uuid + cost then
        .denied 403 "BUDGET_LIMIT_EXCEEDED"
       else .passed a) := by
  have hget : getAgentSpend (incrementAgentSpend db aid (ledgerMonthSpend db a.uuid)) aid
      = ledgerMonthSpend db a.uuid := by
    rw [getAgentSpend_incr, hmiss, zero_add]
  unfold enforceAgentBudget
  dsimp only
  rw [hf]
  simp only [hs, Bool.false_eq_true, if_false, hl, hmiss, if_true, hpos, hget,
    Option.getD_some]
  split
  · constructor
    · rw [getAgentSpend_suspend, hget]
    · rfl
  · constructor
    · rw [hget]
    · rfl

/-- Witness for the amended C4 theorem on the cache-missing fixture. -/
theorem C4_witness :
    getAgentSpend (enforceAgentBudget dbCacheMissing (some "C") (some 2) 1).2 "C" =
      ledgerMonthSpend dbCacheMissing agentC.uuid ∧
    (enforceAgentBudget dbCacheMissing (some "C") (some 2) 1).1 =
      (if (100 : Int) < ledgerMonthSpend dbCacheMissing agentC.uuid + 2 then
        .denied 403 "BUDGET_LIMIT_EXCEEDED"
       else .passed agentC) :=
  C4_backfill dbCacheMissing "C" 1 2 agentC 100 (by decide) (by decide) (by decide)
    (by decide) (by decide)

/-! ### Claim C8 -/

/-- C8: emergency stop requires the explicit confirmation flag (anything but a
literal `confirm: true` is rejected with no state change); with confirmation
it sets the global stop row and, in the same handler, kills every non-killed
agent while leaving already-killed rows untouched, logging one global audit
row; disabling clears only the global stop row — agent rows, cache and ledger
are unchanged, so previously killed agents stay killed until individually
revived. -/
theorem C8_emergency_stop (db : Db) (uid : Nat) (reason : String) (confirm : Option Bool) :
    (confirm ≠ some true → emergencyStopAll db uid reason confirm = (.invalid, db)) ∧
    (confirm = some true →
      (emergencyStopAll db uid reason confirm).2.globalStop =
        ⟨true, some db.now, some uid, some reason⟩ ∧
      (emergencyStopAll db uid reason confirm).2.agents = db.agents.map (fun a =>
        if a.status == .killed then a
        else { a with status := .killed, killedAt := some db.now, killedBy := some uid,
                      killReason := some ("Emergency stop: " ++ reason) }) ∧
      (emergencyStopAll db uid reason confirm).2.killSwitchEvents =
        db.killSwitchEvents ++
          [⟨"emergency_stop_all", "global", none, some uid, "manual", reason⟩]) ∧
    ((emergencyStopDisable db uid).2.globalStop = ⟨false, none, none, none⟩ ∧
     (emergencyStopDisable db uid).2.agents = db.agents ∧
     (emergencyStopDisable db uid).2.spendCache = db.spendCache ∧
     (emergencyStopDisable db uid).2.usageEvents = db.usageEvents ∧
     (emergencyStopDisable db uid).2.killSwitchEvents = db.killSwitchEvents ++
       [⟨"emergency_stop_disabled", "global", none, some uid, "manual",
         "Emergency stop disabled"⟩]) := by
  refine ⟨?_, ?_, ?_⟩
  · intro h
    unfold emergencyStopAll
    rw [if_pos h]
  · intro h
    unfold emergencyStopAll
    rw [if_neg (by simp [h])]
    exact ⟨rfl, rfl, rfl⟩
  · unfold emergencyStopDisable logKillSwitchEvent
    exact ⟨rfl, rfl, rfl, rfl, rfl⟩

/-- Witness for C8 on the concrete single-agent state, for a missing
confirmation, a confirmed stop, and a disable. -/
theorem C8_witness :
    emergencyStopAll baseDb 1 "halt" none = (.invalid, baseDb) ∧
    (emergencyStopAll baseDb 1 "halt" (some true)).2.globalStop =
      ⟨true, some baseDb.now, some 1, some "halt"⟩ ∧
    (emergencyStopAll baseDb 1 "halt" (some true)).2.agents = baseDb.agents.map (fun a =>
      if a.status == .killed then a
      else { a with status := .killed, killedAt := some baseDb.now, killedBy := some 1,
                    killReason := some ("Emergency stop: " ++ "halt") }) ∧
    (emergencyStopDisable baseDb 1).2.agents = baseDb.agents := by
  refine ⟨?_, ?_, ?_, ?_⟩
  · exact (C8_emergency_stop baseDb 1 "halt" none).1 (by decide)
  · exact ((C8_emergency_stop baseDb 1 "halt" (some true)).2.1 rfl).1
  · exact ((C8_emergency_stop baseDb 1 "halt" (some true)).2.1 rfl).2.1
  · exact (C8_emergency_stop baseDb 1 "halt" none).2.2.2.1

/-! ### Claim C7 -/

/-- The status of the (first) agent row with a given uuid. -/
def statusByUuid (db : Db) (u : Nat) : Option AgentStatus :=
  (findAgentAnyUser db u).map Agent.status

/-- Uuid lookups commute with the auto-kill UPDATE (which keeps every uuid). -/
lemma findAgentAnyUser_triggerAutoKill (db : Db) (t : TriggerInfo) (v : ViolationInfo)
    (u : Nat) :
    findAgentAnyUser (triggerAutoKill db t v) u =
      (findAgentAnyUser db u).map (autoKillMap db.now (autoKillReason t) v.agentUuid) := by
  unfold findAgentAnyUser triggerAutoKill logKillSwitchEvent
  exact find?_map_congr fun x => by unfold autoKillMap; split <;> rfl

/-- The auto-kill leaves a killed agent killed. -/
lemma statusByUuid_triggerAutoKill_killed (db : Db) (t : TriggerInfo) (v : ViolationInfo)
    (u : Nat) (h : statusByUuid db u = some .killed) :
    statusByUuid (triggerAutoKill db t v) u = some .killed := by
  unfold statusByUuid at h ⊢
  rw [findAgentAnyUser_triggerAutoKill]
  cases hf : findAgentAnyUser db u with
  | none => rw [hf] at h; simp at h
  | some a =>
    rw [hf] at h
    simp at h
    simp [autoKillMap, h]

/-- The auto-kill of one agent leaves every other uuid's row unchanged. -/
lemma findAgentAnyUser_triggerAutoKill_other (db : Db) (t : TriggerInfo)
    (v : ViolationInfo) (u : Nat) (hne : v.agentUuid ≠ u) :
    findAgentAnyUser (triggerAutoKill db t v) u = findAgentAnyUser db u := by
  rw [findAgentAnyUser_triggerAutoKill]
  cases hf : findAgentAnyUser db u with
  | none => simp
  | some a =>
    have hpa := List.find?_some
      (show db.agents.find? (fun x => x.uuid == u) = some a from hf)
    simp only [beq_iff_eq] at hpa
    have hcond : (a.uuid == v.agentUuid) = false := by
      rw [hpa]
      exact beq_eq_false_iff_ne.mpr (Ne.symm hne)
    simp [autoKillMap, hcond]

/-- The auto-kill of an active agent kills it. -/
lemma statusByUuid_triggerAutoKill_self (db : Db) (t : TriggerInfo) (v : ViolationInfo)
    (u : Nat) (hv : v.agentUuid = u) (h : statusByUuid db u = some .active) :
    statusByUuid (triggerAutoKill db t v) u = some .killed := by
  unfold statusByUuid at h ⊢
  rw [findAgentAnyUser_triggerAutoKill]
  cases hf : findAgentAnyUser db u with
  | none => rw [hf] at h; simp at h
  | some a =>
    rw [hf] at h
    simp at h
    have hpa := List.find?_some
      (show db.agents.find? (fun x => x.uuid == u) = some a from hf)
    simp only [beq_iff_eq] at hpa
    simp [autoKillMap, hpa, hv, h]

/-- The loop-kill fold leaves a killed agent killed. -/
lemma foldl_killed_pres (db : Db) : ∀ (vs : List LoopSig) (acc : Db) (u : Nat),
    statusByUuid acc u = some .killed →
    statusByUuid (vs.foldl (loopKillStep db) acc) u = some .killed := by
  intro vs
  induction vs with
  | nil => intro acc u h; exact h
  | cons s rest ih =>
    intro acc u h
    simp only [List.foldl_cons]
    apply ih
    unfold loopKillStep
    cases findAgentAnyUser db s.agentUuid with
    | none => exact h
    | some a => exact statusByUuid_triggerAutoKill_killed _ _ _ _ h

/-- The loop-kill fold leaves the row of an untargeted uuid unchanged. -/
lemma foldl_other_pres (db : Db) : ∀ (vs : List LoopSig) (acc : Db) (u : Nat),
    (∀ s ∈ vs, s.agentUuid ≠ u) →
    findAgentAnyUser (vs.foldl (loopKillStep db) acc) u = findAgentAnyUser acc u := by
  intro vs
  induction vs with
  | nil => intro acc u _; rfl
  | cons s rest ih =>
    intro acc u h
    simp only [List.foldl_cons]
    rw [ih _ _ fun s' hs' => h s' (List.mem_cons_of_mem _ hs')]
    unfold loopKillStep
    cases findAgentAnyUser db s.agentUuid with
    | none => rfl
    | some a =>
      exact findAgentAnyUser_triggerAutoKill_other _ _ _ _ (h s (List.mem_cons_self _ _))

/-- If some violating group in the list targets uuid `u`, whose row exists in
the snapshot and is active (or already killed) at the accumulator, the fold
ends with it killed. -/
lemma foldl_kills (db : Db) : ∀ (vs : List LoopSig) (acc : Db) (s0 : LoopSig) (u : Nat),
    s0 ∈ vs → s0.agentUuid = u →
    (∃ a0, findAgentAnyUser db u = some a0) →
    (statusByUuid acc u = some .active ∨ statusByUuid acc u = some .killed) →
    statusByUuid (vs.foldl (loopKillStep db) acc) u = some .killed := by
  intro vs
  induction vs with
  | nil => intro acc s0 u hmem; exact absurd hmem (List.not_mem_nil _)
  | cons s rest ih =>
    intro acc s0 u hmem hs0 hex hst
    simp only [List.foldl_cons]
    cases hst with
    | inr hkil =>
      apply foldl_killed_pres
      unfold loopKillStep
      cases findAgentAnyUser db s.agentUuid with
      | none => exact hkil
      | some a => exact statusByUuid_triggerAutoKill_killed _ _ _ _ hkil
    | inl hact =>
      by_cases hsu : s.agentUuid = u
      · apply foldl_killed_pres
        obtain ⟨a0, ha0⟩ := hex
        unfold loopKillStep
        rw [hsu, ha0]
        exact statusByUuid_triggerAutoKill_self _ _ _ _ rfl hact
      · have hstep : statusByUuid (loopKillStep db acc s) u = some .active := by
          unfold loopKillStep
          cases findAgentAnyUser db s.agentUuid with
          | none => exact hact
          | some a =>
            unfold statusByUuid
            rw [findAgentAnyUser_triggerAutoKill_other _ _ _ _ hsu]
            exact hact
        have hs0r : s0 ∈ rest := by
          cases List.mem_cons.mp hmem with
          | inl h' => exact absurd (h' ▸ hs0) hsu
          | inr h' => exact h'
        exact ih _ s0 u hs0r hs0 hex (Or.inl hstep)

/-- C7: an active agent with a signature group of 50 or more candidate events
(identical `(event_name, model, request_hash)` within the 10-minute lookback)
is killed by `checkInfiniteLoops`; an agent all of whose signature groups
count at most 49 is left entirely untouched by this rule. -/
theorem C7_duplicate_loop :
    (∀ (db : Db) (a : Agent) (sg : LoopSig),
      findAgentAnyUser db sg.agentUuid = some a → a.status = .active →
      50 ≤ sigCount db sg →
      statusByUuid (checkInfiniteLoops db) sg.agentUuid = some .killed) ∧
    (∀ (db : Db) (u : Nat),
      (∀ sg : LoopSig, sg.agentUuid = u → sigCount db sg ≤ 49) →
      findAgentAnyUser (checkInfiniteLoops db) u = findAgentAnyUser db u) := by
  constructor
  · intro db a sg hf ha hc
    have hmem : sg ∈ loopViolations db := by
      unfold loopViolations
      rw [List.mem_filter]
      constructor
      · unfold loopSigs
        rw [List.mem_dedup]
        have hpos : 0 < sigCount db sg := lt_of_lt_of_le (by norm_num) hc
        unfold sigCount at hpos
        exact List.count_pos_iff.mp hpos
      · simp only [decide_eq_true_eq]
        exact hc
    unfold checkInfiniteLoops
    refine foldl_kills db _ db sg sg.agentUuid hmem rfl ⟨a, hf⟩ (Or.inl ?_)
    unfold statusByUuid
    rw [hf]
    simp [ha]
  · intro db u h
    have hne : ∀ s ∈ loopViolations db, s.agentUuid ≠ u := by
      intro s hs hsu
      unfold loopViolations at hs
      rw [List.mem_filter] at hs
      have h50 : 50 ≤ sigCount db s := by
        have h2 := hs.2
        simp only [decide_eq_true_eq] at h2
        exact h2
      have h49 := h s hsu
      omega
    unfold checkInfiniteLoops
    exact foldl_other_pres db _ db u hne

/-- Fixture: an active agent targeted by the loop detector. -/
def agentL : Agent :=
  { uuid := 1, agentId := "L", userId := 1, agentName := "L", status := .active,
    pauseUntil := none, killReason := none, killedAt := none, killedBy := none,
    isSuspended := false, monthlyCostLimit := none }

/-- Fixture: one in-window event carrying a request hash. -/
def eventL : UsageEvent :=
  { userId := 1, customerUuid := 1, agentUuid := 1, eventName := "e", vendor := "v",
    model := none, costAmount := 1, requestHash := some "h", isError := false,
    eventMonth := 0, createdAt := 0 }

/-- Fixture: 50 identical in-window events for the agent. -/
def dbLoop50 : Db :=
  { agents := [agentL], customers := [], usageEvents := List.replicate 50 eventL,
    killSwitchEvents := [], globalStop := ⟨false, none, none, none⟩, spendCache := [],
    now := 0, currentMonth := 0, nextUuid := 2 }

/-- Fixture: only 49 identical in-window events for the agent. -/
def dbLoop49 : Db :=
  { agents := [agentL], customers := [], usageEvents := List.replicate 49 eventL,
    killSwitchEvents := [], globalStop := ⟨false, none, none, none⟩, spendCache := [],
    now := 0, currentMonth := 0, nextUuid := 2 }

/-- Fixture: the signature group of those events. -/
def sigL : LoopSig := ⟨1, "e", none, "h"⟩

/-- Witness for C7: 50 identical requests kill the agent on the tick; 49 leave
its row untouched. -/
theorem C7_witness :
    statusByUuid (checkInfiniteLoops dbLoop50) 1 = some .killed ∧
    findAgentAnyUser (checkInfiniteLoops dbLoop49) 1 = findAgentAnyUser dbLoop49 1 := by
  constructor
  · exact C7_duplicate_loop.1 dbLoop50 agentL sigL (by decide) (by decide) (by decide)
  · refine C7_duplicate_loop.2 dbLoop49 1 fun sg _ => ?_
    calc sigCount dbLoop49 sg ≤ ((loopCandidateEvents dbLoop49).filterMap sigOfEvent).length :=
          List.count_le_length _ _
      _ ≤ 49 := by decide

/-! ### Claim C10 -/

/-- Budget suspensions survive a list transformation: every suspended row is
still present (same uuid) and still suspended. -/
def suspendedKept (l l' : List Agent) : Prop :=
  ∀ a ∈ l, a.isSuspended = true → ∃ a', a' ∈ l' ∧ a'.uuid = a.uuid ∧ a'.isSuspended = true

/-- `suspendedKept` is reflexive. -/
lemma suspendedKept_refl (l : List Agent) : suspendedKept l l :=
  fun a ha hs => ⟨a, ha, rfl, hs⟩

/-- `suspendedKept` composes. -/
lemma suspendedKept_trans {l1 l2 l3 : List Agent} (h12 : suspendedKept l1 l2)
    (h23 : suspendedKept l2 l3) : suspendedKept l1 l3 := by
  intro a ha hs
  obtain ⟨b, hb, hbu, hbs⟩ := h12 a ha hs
  obtain ⟨c, hc, hcu, hcs⟩ := h23 b hb hbs
  exact ⟨c, hc, hcu.trans hbu, hcs⟩

/-- A row map that keeps uuids and never clears the suspension flag keeps
suspensions. -/
lemma suspendedKept_map {l : List Agent} (f : Agent → Agent)
    (hu : ∀ a, (f a).uuid = a.uuid)
    (hs : ∀ a, a.isSuspended = true → (f a).isSuspended = true) :
    suspendedKept l (l.map f) :=
  fun a ha hsa => ⟨f a, List.mem_map_of_mem f ha, hu a, hs a hsa⟩

/-- Appending rows keeps suspensions. -/
lemma suspendedKept_append (l l2 : List Agent) : suspendedKept l (l ++ l2) :=
  fun a ha hs => ⟨a, List.mem_append_left _ ha, rfl, hs⟩

/-- The budget middleware never clears a suspension flag (it only sets one). -/
lemma enforce_suspendedKept (db : Db) (aid : Option String) (c : Option Int) (uid : Nat) :
    suspendedKept db.agents (enforceAgentBudget db aid c uid).2.agents := by
  unfold enforceAgentBudget suspendAgentByUuid incrementAgentSpend
  dsimp only
  repeat' split
  all_goals
    first
      | exact suspendedKept_refl _
      | exact suspendedKept_map _ (fun a => by split <;> rfl)
          (fun a hsa => by split <;> simp [hsa])

/-- `ensureAgentExists` only appends rows. -/
lemma ensureAgent_suspendedKept (db : Db) (uid : Nat) (aid : String) :
    suspendedKept db.agents (ensureAgentExists db uid aid).2.agents := by
  unfold ensureAgentExists
  cases findAgentExt db aid uid with
  | some a => exact suspendedKept_refl _
  | none => exact suspendedKept_append _ _

/-- The post-creation budget check never clears a suspension flag. -/
lemma checkAfterCreation_suspendedKept (db : Db) (u : Nat) (c : Int) (uid : Nat) :
    suspendedKept db.agents (checkAgentBudgetAfterCreation db u c uid).2.agents := by
  unfold checkAgentBudgetAfterCreation suspendAgentByUuid
  repeat' split
  all_goals
    first
      | exact suspendedKept_refl _
      | exact suspendedKept_map _ (fun a => by split <;> rfl)
          (fun a hsa => by split <;> simp [hsa])

/-- The kill-switch check (with its self-heal) never touches suspension
flags. -/
lemma is_agent_active_suspendedKept (db : Db) (u uid : Nat) :
    suspendedKept db.agents (is_agent_active db u uid).2.agents := by
  unfold is_agent_active selfHealAgent
  repeat' split
  all_goals
    first
      | exact suspendedKept_refl _
      | exact suspendedKept_map _ (fun a => by split <;> rfl)
          (fun a hsa => by split <;> simp [hsa])

/-- The whole `/record` pipeline never clears any agent's suspension flag. -/
lemma recordUsage_suspendedKept (db : Db) (body : RecordBody) (uid : Nat) :
    suspendedKept db.agents (recordUsage db body uid).2.agents := by
  have h1full := enforce_suspendedKept db body.agentId body.costAmount uid
  rcases hmw : enforceAgentBudget db body.agentId body.costAmount uid with ⟨mw, db1⟩
  rw [hmw] at h1full
  unfold recordUsage
  rw [hmw]
  cases mw with
  | denied s code => exact h1full
  | deferred =>
    by_cases hv : validateRecordBody body = true
    · cases hba : body.agentId with
      | none => simp only [hv, if_true]; exact h1full
      | some aid =>
        cases hbc : body.costAmount with
        | none => simp only [hv, if_true]; exact h1full
        | some cost =>
          simp only [hv, if_true]
          have hfc := (ensureCustomerExists_frame db1 uid body.customerId).1
          rcases hec : ensureCustomerExists db1 uid body.customerId with ⟨cu, db2⟩
          rw [hec] at hfc
          simp only at hfc
          have h2 : suspendedKept db.agents db2.agents := by
            rw [hfc]; exact h1full
          have h3full := ensureAgent_suspendedKept db2 uid aid
          rcases hea : ensureAgentExists db2 uid aid with ⟨au, db3⟩
          rw [hea] at h3full
          have h3 : suspendedKept db.agents db3.agents := suspendedKept_trans h2 h3full
          have h4full := checkAfterCreation_suspendedKept db3 au cost uid
          rcases hpc : checkAgentBudgetAfterCreation db3 au cost uid with ⟨post, db4⟩
          rw [hpc] at h4full
          have h4 : suspendedKept db.agents db4.agents := suspendedKept_trans h3 h4full
          have h5full := is_agent_active_suspendedKept db4 au uid
          rcases hia : is_agent_active db4 au uid with ⟨act, db5⟩
          rw [hia] at h5full
          have h5 : suspendedKept db.agents db5.agents := suspendedKept_trans h4 h5full
          cases post with
          | failed => exact h4
          | deniedWith code => exact h4
          | allowed =>
            cases act with
            | false => exact h5
            | true => exact h5
    · simp only [Bool.not_eq_true] at hv
      simp only [hv, Bool.false_eq_true, if_false]
      exact h1full
  | passed ag0 =>
    by_cases hv : validateRecordBody body = true
    · cases hba : body.agentId with
      | none => simp only [hv, if_true]; exact h1full
      | some aid =>
        cases hbc : body.costAmount with
        | none => simp only [hv, if_true]; exact h1full
        | some cost =>
          simp only [hv, if_true]
          have hfc := (ensureCustomerExists_frame db1 uid body.customerId).1
          rcases hec : ensureCustomerExists db1 uid body.customerId with ⟨cu, db2⟩
          rw [hec] at hfc
          simp only at hfc
          have h2 : suspendedKept db.agents db2.agents := by
            rw [hfc]; exact h1full
          have h3full := ensureAgent_suspendedKept db2 uid aid
          rcases hea : ensureAgentExists db2 uid aid with ⟨au, db3⟩
          rw [hea] at h3full
          have h3 : suspendedKept db.agents db3.agents := suspendedKept_trans h2 h3full
          have h5full := is_agent_active_suspendedKept db3 au uid
          rcases hia : is_agent_active db3 au uid with ⟨act, db5⟩
          rw [hia] at h5full
          have h5 : suspendedKept db.agents db5.agents := suspendedKept_trans h3 h5full
          cases act with
          | false => exact h5
          | true => exact h5
    · simp only [Bool.not_eq_true] at hv
      simp only [hv, Bool.false_eq_true, if_false]
      exact h1full

/-- A revive keeps the suspension flag of the revived row. -/
lemma reviveAgent_isSuspended (db : Db) (uid : Nat) (aid reason : String) (a : Agent)
    (h : findAgentExt db aid uid = some a) :
    (findAgentExt (reviveAgent db uid aid reason).2 aid uid).map Agent.isSuspended =
      some a.isSuspended := by
  unfold reviveAgent
  split
  · rw [h]
    rfl
  · unfold findAgentExt at h ⊢
    unfold logKillSwitchEvent
    have hp : ∀ x : Agent,
        ((fun x : Agent => x.agentId == aid && x.userId == uid)
          (if (reviveMatch uid aid x) then
            { x with status := AgentStatus.active, pauseUntil := none,
                     killReason := none, killedAt := none, killedBy := none }
           else x)) =
        ((fun x : Agent => x.agentId == aid && x.userId == uid) x) := by
      intro x
      split <;> rfl
    rw [find?_map_congr hp, h]
    cases hr : reviveMatch uid aid a <;> simp [hr]

/-- A found suspended agent is denied `AGENT_SUSPENDED` by the middleware and
the request changes nothing. -/
lemma recordUsage_suspended_denies (db : Db) (body : RecordBody) (uid : Nat)
    (aid : String) (a : Agent) (hbaid : body.agentId = some aid)
    (hf : findAgentExt db aid uid = some a) (hs : a.isSuspended = true) :
    recordUsage db body uid = (.denied 403 "AGENT_SUSPENDED", db) := by
  have henf : enforceAgentBudget db body.agentId body.costAmount uid =
      (.denied 403 "AGENT_SUSPENDED", db) := by
    rw [hbaid]
    unfold enforceAgentBudget
    dsimp only
    rw [hf]
    simp [hs]
  unfold recordUsage
  rw [henf]

/-- C10: a successful revive resets only status/pause/kill fields, so a
budget-suspended agent stays suspended across it; every admission request
naming that agent is then denied `AGENT_SUSPENDED` with no state change, and
no admission request (for any agent) ever clears a suspension flag. -/
theorem C10_revive_suspension (db : Db) (uid : Nat) (aid reason : String) (a : Agent)
    (hf : findAgentExt db aid uid = some a) (hs : a.isSuspended = true) :
    ((findAgentExt (reviveAgent db uid aid reason).2 aid uid).map Agent.isSuspended =
      some true) ∧
    (∀ body : RecordBody, body.agentId = some aid →
      recordUsage (reviveAgent db uid aid reason).2 body uid =
        (.denied 403 "AGENT_SUSPENDED", (reviveAgent db uid aid reason).2)) ∧
    (∀ (db2 : Db) (body : RecordBody) (uid2 : Nat),
      suspendedKept db2.agents (recordUsage db2 body uid2).2.agents) := by
  have hkeep := reviveAgent_isSuspended db uid aid reason a hf
  rw [hs] at hkeep
  refine ⟨hkeep, ?_, fun db2 body uid2 => recordUsage_suspendedKept db2 body uid2⟩
  intro body hbaid
  obtain ⟨a', ha', hsa'⟩ := Option.map_eq_some'.mp hkeep
  exact recordUsage_suspended_denies _ body uid aid a' hbaid ha' hsa'

/-- Fixture: a budget-suspended agent that was also killed. -/
def agentSK : Agent :=
  { uuid := 1, agentId := "S", userId := 1, agentName := "S", status := .killed,
    pauseUntil := none, killReason := some "limit", killedAt := some 0, killedBy := some 1,
    isSuspended := true, monthlyCostLimit := some 10 }

/-- Fixture: state holding the suspended-and-killed agent. -/
def dbSusp : Db :=
  { agents := [agentSK], customers := [], usageEvents := [], killSwitchEvents := [],
    globalStop := ⟨false, none, none, none⟩, spendCache := [], now := 0,
    currentMonth := 0, nextUuid := 2 }

/-- Witness for C10 on the concrete suspended agent. -/
theorem C10_witness :
    ((findAgentExt (reviveAgent dbSusp 1 "S" "r").2 "S" 1).map Agent.isSuspended =
      some true) ∧
    recordUsage (reviveAgent dbSusp 1 "S" "r").2 (bodyFor "S" 3) 1 =
      (.denied 403 "AGENT_SUSPENDED", (reviveAgent dbSusp 1 "S" "r").2) ∧
    suspendedKept dbSusp.agents (recordUsage dbSusp (bodyFor "S" 3) 1).2.agents := by
  have h := C10_revive_suspension dbSusp 1 "S" "r" agentSK (by decide) (by decide)
  exact ⟨h.1, h.2.1 (bodyFor "S" 3) rfl, h.2.2 dbSusp (bodyFor "S" 3) 1⟩

/-! ### Claim C9 -/

/-- The database constraints the schema declares for agents: `id` is a
primary key (uuids are distinct) and fresh uuids are really fresh. -/
def DbWF (db : Db) : Prop :=
  (db.agents.map Agent.uuid).Nodup ∧ ∀ a ∈ db.agents, a.uuid < db.nextUuid

/-- Some row with the given external key exists and is killed. -/
def KilledAt (db : Db) (aid : String) (uid : Nat) : Prop :=
  ∃ a, findAgentExt db aid uid = some a ∧ a.status = .killed

/-- The bulk loop never touches the ledger: inserts go through the
transaction and only a final COMMIT publishes them. -/
lemma recordBulkGo_usageEvents (uid : Nat) : ∀ (events : List RecordBody) (db : Db),
    (recordBulkGo uid events db).1.usageEvents = db.usageEvents := by
  intro events
  induction events with
  | nil => intro db; rfl
  | cons e rest ih =>
    intro db
    unfold recordBulkGo
    cases hba : e.agentId with
    | none => rfl
    | some aid =>
      cases hbc : e.costAmount with
      | none => rfl
      | some cost =>
        have hfc := ensureCustomerExists_frame db uid e.customerId
        rcases hec : ensureCustomerExists db uid e.customerId with ⟨cu, db1⟩
        rw [hec] at hfc
        obtain ⟨-, hu1, -, -, -, -, -⟩ := hfc
        simp only at hu1
        have hfa := ensureAgentExists_frame db1 uid aid
        rcases hea : ensureAgentExists db1 uid aid with ⟨au, db2⟩
        rw [hea] at hfa
        obtain ⟨-, hu2, -, -, -, -, -⟩ := hfa
        simp only at hu2
        have hfi := is_agent_active_frame db2 au uid
        rcases hia : is_agent_active db2 au uid with ⟨act, db3⟩
        rw [hia] at hfi
        obtain ⟨-, hu3, -, -, -, -, -, -⟩ := hfi
        simp only at hu3
        have hih := ih db3
        rcases hgo : recordBulkGo uid rest db3 with ⟨db4, res⟩
        rw [hgo] at hih
        simp only at hih
        cases act with
        | false =>
          simp only [hec, hea, hia, Bool.false_eq_true, if_false]
          rw [hu3, hu2, hu1]
        | true =>
          simp only [hec, hea, hia, if_true, hgo]
          cases res with
          | some evs =>
            simp only
            rw [hih, hu3, hu2, hu1]
          | none =>
            simp only
            rw [hih, hu3, hu2, hu1]

/-- Under an active global stop the bulk loop throws at its first event. -/
lemma recordBulkGo_gs (uid : Nat) (e : RecordBody) (rest : List RecordBody) (db : Db)
    (hgs : db.globalStop.isEmergencyStopped = true) :
    (recordBulkGo uid (e :: rest) db).2 = none := by
  unfold recordBulkGo
  cases hba : e.agentId with
  | none => rfl
  | some aid =>
    cases hbc : e.costAmount with
    | none => rfl
    | some cost =>
      have hfc := ensureCustomerExists_frame db uid e.customerId
      rcases hec : ensureCustomerExists db uid e.customerId with ⟨cu, db1⟩
      rw [hec] at hfc
      obtain ⟨-, -, hg1, -, -, -, -⟩ := hfc
      simp only at hg1
      have hfa := ensureAgentExists_frame db1 uid aid
      rcases hea : ensureAgentExists db1 uid aid with ⟨au, db2⟩
      rw [hea] at hfa
      obtain ⟨-, -, hg2, -, -, -, -⟩ := hfa
      simp only at hg2
      have hia := is_agent_active_gs db2 au uid (by rw [hg2, hg1]; exact hgs)
      simp only [hec, hea, hia, Bool.false_eq_true, if_false]

/-- Key uniqueness: with distinct uuids, the uuid lookup of a member row
returns that row. -/
lemma find?_uuid_eq_of_nodup (uid : Nat) : ∀ (l : List Agent),
    (l.map Agent.uuid).Nodup → ∀ a ∈ l, a.userId = uid →
    l.find? (fun x => x.uuid == a.uuid && x.userId == uid) = some a := by
  intro l
  induction l with
  | nil => intro _ a ha; exact absurd ha (List.not_mem_nil _)
  | cons b rest ih =>
    intro hnd a hmem huser
    rw [List.map_cons, List.nodup_cons] at hnd
    rcases List.mem_cons.mp hmem with rfl | hrest
    · rw [List.find?_cons_of_pos]
      simp [huser]
    · have hbne : b.uuid ≠ a.uuid := by
        intro hb
        exact hnd.1 (hb ▸ List.mem_map_of_mem _ hrest)
      rw [List.find?_cons_of_neg]
      · exact ih hnd.2 a hrest huser
      · simp [hbne]

/-- A killed agent fails the kill-switch check with no state change. -/
lemma is_agent_active_killed (db : Db) (u uid : Nat) (a : Agent)
    (h : findAgentByUuid db u uid = some a) (hk : a.status = .killed) :
    is_agent_active db u uid = (false, db) := by
  unfold is_agent_active
  split
  · rfl
  · rw [h]
    simp [hk]

/-- `ensureCustomerExists` keeps the schema constraints. -/
lemma DbWF_ensureCustomer (db : Db) (uid : Nat) (cid : String) (h : DbWF db) :
    DbWF (ensureCustomerExists db uid cid).2 := by
  unfold ensureCustomerExists
  cases findCustomer db cid uid with
  | some c => exact h
  | none =>
    refine ⟨h.1, fun a ha => ?_⟩
    have := h.2 a ha
    show a.uuid < db.nextUuid + 1
    omega

/-- `ensureAgentExists` keeps the schema constraints: a created row gets the
fresh uuid. -/
lemma DbWF_ensureAgent (db : Db) (uid : Nat) (aid : String) (h : DbWF db) :
    DbWF (ensureAgentExists db uid aid).2 := by
  unfold ensureAgentExists
  cases findAgentExt db aid uid with
  | some a => exact h
  | none =>
    constructor
    · simp only [List.map_append, List.map_cons, List.map_nil]
      rw [List.nodup_append]
      refine ⟨h.1, List.nodup_singleton _, ?_⟩
      intro x hx hx2
      rcases List.mem_map.mp hx with ⟨b, hb, rfl⟩
      have hlt := h.2 b hb
      simp at hx2
      omega
    · intro a ha
      rcases List.mem_append.mp ha with hl | hr
      · have := h.2 a hl
        show a.uuid < db.nextUuid + 1
        omega
      · simp at hr
        rw [hr]
        show db.nextUuid < db.nextUuid + 1
        omega

/-- Self-healing keeps every uuid, so the schema constraints survive it. -/
lemma DbWF_selfHeal (db : Db) (u : Nat) (h : DbWF db) : DbWF (selfHealAgent db u) := by
  constructor
  · unfold selfHealAgent
    simp only
    rw [List.map_map]
    have hfu : (Agent.uuid ∘ fun a : Agent =>
        if a.uuid == u then { a with status := AgentStatus.active, pauseUntil := none }
        else a) = Agent.uuid := by
      funext x
      simp only [Function.comp]
      split <;> rfl
    rw [hfu]
    exact h.1
  · intro a ha
    unfold selfHealAgent at ha
    simp only at ha
    rcases List.mem_map.mp ha with ⟨b, hb, rfl⟩
    have hlt := h.2 b hb
    show Agent.uuid _ < db.nextUuid
    split <;> exact hlt

/-- The kill-switch check keeps the schema constraints. -/
lemma DbWF_is_agent_active (db : Db) (u uid : Nat) (h : DbWF db) :
    DbWF (is_agent_active db u uid).2 := by
  unfold is_agent_active
  repeat' split
  all_goals first
    | exact h
    | exact DbWF_selfHeal db u h

/-- Customers creation does not disturb a killed agent row. -/
lemma KilledAt_ensureCustomer (db : Db) (uid : Nat) (cid : String) (aid : String)
    (h : KilledAt db aid uid) : KilledAt (ensureCustomerExists db uid cid).2 aid uid := by
  obtain ⟨a, hf, hk⟩ := h
  refine ⟨a, ?_, hk⟩
  rw [findAgentExt_congr (ensureCustomerExists_frame db uid cid).1]
  exact hf

/-- Agent creation (of any key) does not disturb a killed agent row. -/
lemma KilledAt_ensureAgent (db : Db) (uid : Nat) (aid' aid : String)
    (h : KilledAt db aid uid) : KilledAt (ensureAgentExists db uid aid').2 aid uid := by
  obtain ⟨a, hf, hk⟩ := h
  refine ⟨a, ?_, hk⟩
  unfold ensureAgentExists
  cases hfind : findAgentExt db aid' uid with
  | some b => exact hf
  | none =>
    unfold findAgentExt at hf ⊢
    simp only
    rw [List.find?_append, hf]
    rfl

/-- The kill-switch check (in a state with unique uuids) does not disturb a
killed agent row: self-healing targets a paused row, which by uuid uniqueness
cannot be the killed one. -/
lemma KilledAt_is_agent_active (db : Db) (u uid : Nat) (aid : String)
    (hwf : DbWF db) (h : KilledAt db aid uid) :
    KilledAt (is_agent_active db u uid).2 aid uid := by
  obtain ⟨a, hf, hk⟩ := h
  unfold is_agent_active
  split
  · exact ⟨a, hf, hk⟩
  · cases hfu : findAgentByUuid db u uid with
    | none => exact ⟨a, hf, hk⟩
    | some p =>
      dsimp only
      by_cases hpk : p.status = .killed
      · rw [if_pos hpk]
        exact ⟨a, hf, hk⟩
      · rw [if_neg hpk]
        split
        · split
          · exact ⟨a, hf, hk⟩
          · have hpmem : p ∈ db.agents := List.mem_of_find?_eq_some
              (show db.agents.find? (fun x => x.uuid == u && x.userId == uid) = some p
                from hfu)
            have hppred := List.find?_some
              (show db.agents.find? (fun x => x.uuid == u && x.userId == uid) = some p
                from hfu)
            simp only [Bool.and_eq_true, beq_iff_eq] at hppred
            have hamem : a ∈ db.agents := List.mem_of_find?_eq_some
              (show db.agents.find? (fun x => x.agentId == aid && x.userId == uid) = some a
                from hf)
            have hane : a ≠ p := fun hap => hpk (hap ▸ hk)
            have haune : a.uuid ≠ u := by
              intro hau
              exact hane (List.inj_on_of_nodup_map hwf.1 hamem hpmem
                (by rw [hau, hppred.1]))
            have hfx := selfHeal_findAgentExt db u aid uid a hf
            have hc : (a.uuid == u) = false := beq_eq_false_iff_ne.mpr haune
            rw [hc] at hfx
            simp only [Bool.false_eq_true, if_false] at hfx
            exact ⟨a, hfx, hk⟩
        · exact ⟨a, hf, hk⟩
        · exact ⟨a, hf, hk⟩

/-- If some event of the batch names a killed agent, the bulk loop throws. -/
lemma recordBulkGo_killed (uid : Nat) (aid : String) :
    ∀ (events : List RecordBody) (db : Db),
    DbWF db → events.all validateRecordBody = true →
    (∃ e ∈ events, e.agentId = some aid) →
    KilledAt db aid uid →
    (recordBulkGo uid events db).2 = none := by
  intro events
  induction events with
  | nil =>
    intro db _ _ hex _
    obtain ⟨e, he, -⟩ := hex
    exact absurd he (List.not_mem_nil _)
  | cons e rest ih =>
    intro db hwf hval hex hkill
    rw [List.all_cons, Bool.and_eq_true] at hval
    unfold recordBulkGo
    cases hba : e.agentId with
    | none => rfl
    | some aid' =>
      cases hbc : e.costAmount with
      | none => rfl
      | some cost =>
        rcases hec : ensureCustomerExists db uid e.customerId with ⟨cu, db1⟩
        have hwf1 : DbWF db1 := by
          have := DbWF_ensureCustomer db uid e.customerId hwf
          rw [hec] at this
          exact this
        have hkill1 : KilledAt db1 aid uid := by
          have := KilledAt_ensureCustomer db uid e.customerId aid hkill
          rw [hec] at this
          exact this
        by_cases haid : aid' = aid
        · subst haid
          obtain ⟨a, hfa, hka⟩ := hkill1
          have hea' : ensureAgentExists db1 uid aid' = (a.uuid, db1) := by
            unfold ensureAgentExists
            rw [hfa]
          have hamem : a ∈ db1.agents := List.mem_of_find?_eq_some
            (show db1.agents.find? (fun x => x.agentId == aid' && x.userId == uid) = some a
              from hfa)
          have hapred := List.find?_some
            (show db1.agents.find? (fun x => x.agentId == aid' && x.userId == uid) = some a
              from hfa)
          simp only [Bool.and_eq_true, beq_iff_eq] at hapred
          have hfind : findAgentByUuid db1 a.uuid uid = some a :=
            find?_uuid_eq_of_nodup uid db1.agents hwf1.1 a hamem hapred.2
          have hia := is_agent_active_killed db1 a.uuid uid a hfind hka
          simp only [hec, hea', hia, Bool.false_eq_true, if_false]
        · rcases hea : ensureAgentExists db1 uid aid' with ⟨au, db2⟩
          have hwf2 : DbWF db2 := by
            have := DbWF_ensureAgent db1 uid aid' hwf1
            rw [hea] at this
            exact this
          have hkill2 : KilledAt db2 aid uid := by
            have := KilledAt_ensureAgent db1 uid aid' aid hkill1
            rw [hea] at this
            exact this
          have hexr : ∃ e' ∈ rest, e'.agentId = some aid := by
            obtain ⟨e0, he0, ha0⟩ := hex
            rcases List.mem_cons.mp he0 with rfl | hr
            · rw [hba] at ha0
              injection ha0 with hh
              exact absurd hh haid
            · exact ⟨e0, hr, ha0⟩
          rcases hia : is_agent_active db2 au uid with ⟨act, db3⟩
          have hwf3 : DbWF db3 := by
            have := DbWF_is_agent_active db2 au uid hwf2
            rw [hia] at this
            exact this
          have hkill3 : KilledAt db3 aid uid := by
            have := KilledAt_is_agent_active db2 au uid aid hwf2 hkill2
            rw [hia] at this
            exact this
          cases act with
          | false => simp only [hec, hea, hia, Bool.false_eq_true, if_false]
          | true =>
            simp only [hec, hea, hia, if_true]
            have hrec := ih db3 hwf3 hval.2 hexr hkill3
            rcases hgo : recordBulkGo uid rest db3 with ⟨db4, res⟩
            rw [hgo] at hrec
            simp only at hrec
            cases res with
            | some evs => simp at hrec
            | none => simp only [hgo]

/-- A found agent paused into the future fails the kill-switch check with no
state change (the self-heal branch needs the pause to have expired). -/
lemma is_agent_active_paused_future (db : Db) (u uid : Nat) (a : Agent) (t : Int)
    (h : findAgentByUuid db u uid = some a) (hst : a.status = .paused)
    (hpu : a.pauseUntil = some t) (hlt : db.now < t) :
    is_agent_active db u uid = (false, db) := by
  unfold is_agent_active
  split
  · rfl
  · rw [h]
    simp [hst, hpu, hlt]

/-- Some row with the given external key exists, is paused, and its pause has
not yet expired at the state's clock. -/
def PausedFutureAt (db : Db) (aid : String) (uid : Nat) : Prop :=
  ∃ a t, findAgentExt db aid uid = some a ∧ a.status = .paused ∧
    a.pauseUntil = some t ∧ db.now < t

/-- Customer creation does not disturb an unexpired-paused agent row. -/
lemma PausedFutureAt_ensureCustomer (db : Db) (uid : Nat) (cid : String) (aid : String)
    (h : PausedFutureAt db aid uid) :
    PausedFutureAt (ensureCustomerExists db uid cid).2 aid uid := by
  obtain ⟨a, t, hf, hst, hpu, hlt⟩ := h
  refine ⟨a, t, ?_, hst, hpu, ?_⟩
  · rw [findAgentExt_congr (ensureCustomerExists_frame db uid cid).1]
    exact hf
  · rw [(ensureCustomerExists_frame db uid cid).2.2.2.2.1]
    exact hlt

/-- Agent creation (of any key) does not disturb an unexpired-paused agent
row. -/
lemma PausedFutureAt_ensureAgent (db : Db) (uid : Nat) (aid' aid : String)
    (h : PausedFutureAt db aid uid) :
    PausedFutureAt (ensureAgentExists db uid aid').2 aid uid := by
  obtain ⟨a, t, hf, hst, hpu, hlt⟩ := h
  refine ⟨a, t, ?_, hst, hpu, ?_⟩
  · unfold ensureAgentExists
    cases hfind : findAgentExt db aid' uid with
    | some b => exact hf
    | none =>
      unfold findAgentExt at hf ⊢
      simp only
      rw [List.find?_append, hf]
      rfl
  · rw [(ensureAgentExists_frame db uid aid').2.2.2.2.1]
    exact hlt

/-- The kill-switch check (in a state with unique uuids) does not disturb an
unexpired-paused agent row: the self-heal targets a row whose pause has
expired, which cannot be this one. -/
lemma PausedFutureAt_is_agent_active (db : Db) (u uid : Nat) (aid : String)
    (hwf : DbWF db) (h : PausedFutureAt db aid uid) :
    PausedFutureAt (is_agent_active db u uid).2 aid uid := by
  obtain ⟨a, t, hf, hst, hpu, hlt⟩ := h
  unfold is_agent_active
  split
  · exact ⟨a, t, hf, hst, hpu, hlt⟩
  · cases hfu : findAgentByUuid db u uid with
    | none => exact ⟨a, t, hf, hst, hpu, hlt⟩
    | some p =>
      dsimp only
      by_cases hpk : p.status = .killed
      · rw [if_pos hpk]
        exact ⟨a, t, hf, hst, hpu, hlt⟩
      · rw [if_neg hpk]
        cases hps : p.status with
        | killed => exact absurd hps hpk
        | active =>
          cases hpp : p.pauseUntil <;> · simp only [hps, hpp]; exact ⟨a, t, hf, hst, hpu, hlt⟩
        | paused =>
          cases hpp : p.pauseUntil with
          | none =>
            simp only [hps, hpp]
            exact ⟨a, t, hf, hst, hpu, hlt⟩
          | some tp =>
            simp only [hps, hpp]
            by_cases hl2 : db.now < tp
            · rw [if_pos hl2]
              exact ⟨a, t, hf, hst, hpu, hlt⟩
            · rw [if_neg hl2]
              have hane : a ≠ p := by
                intro hap
                rw [hap, hpp] at hpu
                injection hpu with hte
                exact hl2 (by rw [hte]; exact hlt)
              have hpmem : p ∈ db.agents := List.mem_of_find?_eq_some
                (show db.agents.find? (fun x => x.uuid == u && x.userId == uid) = some p
                  from hfu)
              have hppred := List.find?_some
                (show db.agents.find? (fun x => x.uuid == u && x.userId == uid) = some p
                  from hfu)
              simp only [Bool.and_eq_true, beq_iff_eq] at hppred
              have hamem : a ∈ db.agents := List.mem_of_find?_eq_some
                (show db.agents.find? (fun x => x.agentId == aid && x.userId == uid) =
                  some a from hf)
              have haune : a.uuid ≠ u := by
                intro hau
                exact hane (List.inj_on_of_nodup_map hwf.1 hamem hpmem
                  (by rw [hau, hppred.1]))
              have hfx := selfHeal_findAgentExt db u aid uid a hf
              have hc : (a.uuid == u) = false := beq_eq_false_iff_ne.mpr haune
              rw [hc] at hfx
              simp only [Bool.false_eq_true, if_false] at hfx
              exact ⟨a, t, hfx, hst, hpu, hlt⟩

/-- If some event of the batch names an unexpired-paused agent, the bulk loop
throws. -/
lemma recordBulkGo_paused (uid : Nat) (aid : String) :
    ∀ (events : List RecordBody) (db : Db),
    DbWF db → events.all validateRecordBody = true →
    (∃ e ∈ events, e.agentId = some aid) →
    PausedFutureAt db aid uid →
    (recordBulkGo uid events db).2 = none := by
  intro events
  induction events with
  | nil =>
    intro db _ _ hex _
    obtain ⟨e, he, -⟩ := hex
    exact absurd he (List.not_mem_nil _)
  | cons e rest ih =>
    intro db hwf hval hex hpause
    rw [List.all_cons, Bool.and_eq_true] at hval
    unfold recordBulkGo
    cases hba : e.agentId with
    | none => rfl
    | some aid' =>
      cases hbc : e.costAmount with
      | none => rfl
      | some cost =>
        rcases hec : ensureCustomerExists db uid e.customerId with ⟨cu, db1⟩
        have hwf1 : DbWF db1 := by
          have := DbWF_ensureCustomer db uid e.customerId hwf
          rw [hec] at this
          exact this
        have hpause1 : PausedFutureAt db1 aid uid := by
          have := PausedFutureAt_ensureCustomer db uid e.customerId aid hpause
          rw [hec] at this
          exact this
        by_cases haid : aid' = aid
        · subst haid
          obtain ⟨a, t, hfa, hsta, hpua, hlta⟩ := hpause1
          have hea' : ensureAgentExists db1 uid aid' = (a.uuid, db1) := by
            unfold ensureAgentExists
            rw [hfa]
          have hamem : a ∈ db1.agents := List.mem_of_find?_eq_some
            (show db1.agents.find? (fun x => x.agentId == aid' && x.userId == uid) = some a
              from hfa)
          have hapred := List.find?_some
            (show db1.agents.find? (fun x => x.agentId == aid' && x.userId == uid) = some a
              from hfa)
          simp only [Bool.and_eq_true, beq_iff_eq] at hapred
          have hfind : findAgentByUuid db1 a.uuid uid = some a :=
            find?_uuid_eq_of_nodup uid db1.agents hwf1.1 a hamem hapred.2
          have hia := is_agent_active_paused_future db1 a.uuid uid a t hfind hsta hpua hlta
          simp only [hec, hea', hia, Bool.false_eq_true, if_false]
        · rcases hea : ensureAgentExists db1 uid aid' with ⟨au, db2⟩
          have hwf2 : DbWF db2 := by
            have := DbWF_ensureAgent db1 uid aid' hwf1
            rw [hea] at this
            exact this
          have hpause2 : PausedFutureAt db2 aid uid := by
            have := PausedFutureAt_ensureAgent db1 uid aid' aid hpause1
            rw [hea] at this
            exact this
          have hexr : ∃ e' ∈ rest, e'.agentId = some aid := by
            obtain ⟨e0, he0, ha0⟩ := hex
            rcases List.mem_cons.mp he0 with rfl | hr
            · rw [hba] at ha0
              injection ha0 with hh
              exact absurd hh haid
            · exact ⟨e0, hr, ha0⟩
          rcases hia : is_agent_active db2 au uid with ⟨act, db3⟩
          have hwf3 : DbWF db3 := by
            have := DbWF_is_agent_active db2 au uid hwf2
            rw [hia] at this
            exact this
          have hpause3 : PausedFutureAt db3 aid uid := by
            have := PausedFutureAt_is_agent_active db2 au uid aid hwf2 hpause2
            rw [hia] at this
            exact this
          cases act with
          | false => simp only [hec, hea, hia, Bool.false_eq_true, if_false]
          | true =>
            simp only [hec, hea, hia, if_true]
            have hrec := ih db3 hwf3 hval.2 hexr hpause3
            rcases hgo : recordBulkGo uid rest db3 with ⟨db4, res⟩
            rw [hgo] at hrec
            simp only at hrec
            cases res with
            | some evs => simp at hrec
            | none => simp only [hgo]

/-- C9 names a claim the handler's transaction satisfies but the mounted
route contradicts.  The route runs `enforceAgentBudget` first, which reads
the top-level `agent_id` a `{events: [...]}` body never has, and the
handler's Joi schema rejects any body that does add one — so the route never
accepts a batch and never appends anything; at the claim's intended input
(a valid events-only body) it answers 400 `MISSING_AGENT_ID`.  The handler's
transaction itself is atomic exactly as claimed: a batch is never committed
when an event names a killed agent, an unexpired-paused agent, or runs under
the emergency stop — it throws and rolls back — and any batch not accepted
appends nothing to the ledger. -/
theorem C9_bulk_atomic :
    (∀ (db : Db) (b : BulkBody) (uid : Nat),
      (recordBulk db b uid).1 ≠ .ok ∧
      (recordBulk db b uid).2.usageEvents = db.usageEvents) ∧
    (∀ (db : Db) (events : List RecordBody) (uid : Nat),
      recordBulk db ⟨none, none, events⟩ uid = (.denied 400 "MISSING_AGENT_ID", db)) ∧
    (∀ (db : Db) (b : BulkBody) (uid : Nat),
      (recordBulkHandler db b uid).1 ≠ .ok →
      (recordBulkHandler db b uid).2.usageEvents = db.usageEvents) ∧
    (∀ (db : Db) (b : BulkBody) (uid : Nat),
      bulkBodyValid b = true →
      db.globalStop.isEmergencyStopped = true →
      (recordBulkHandler db b uid).1 = .serverError ∧
      (recordBulkHandler db b uid).2.usageEvents = db.usageEvents) ∧
    (∀ (db : Db) (b : BulkBody) (uid : Nat) (aid : String),
      bulkBodyValid b = true →
      DbWF db →
      (∃ e ∈ b.events, e.agentId = some aid) →
      KilledAt db aid uid →
      (recordBulkHandler db b uid).1 = .serverError ∧
      (recordBulkHandler db b uid).2.usageEvents = db.usageEvents) ∧
    (∀ (db : Db) (b : BulkBody) (uid : Nat) (aid : String),
      bulkBodyValid b = true →
      DbWF db →
      (∃ e ∈ b.events, e.agentId = some aid) →
      PausedFutureAt db aid uid →
      (recordBulkHandler db b uid).1 = .serverError ∧
      (recordBulkHandler db b uid).2.usageEvents = db.usageEvents) := by
  have hcore : ∀ (db : Db) (b : BulkBody) (uid : Nat),
      bulkBodyValid b = true →
      (recordBulkGo uid b.events db).2 = none →
      (recordBulkHandler db b uid).1 = .serverError ∧
      (recordBulkHandler db b uid).2.usageEvents = db.usageEvents := by
    intro db b uid hv hnone
    unfold recordBulkHandler
    simp only [hv, if_true]
    have hu := recordBulkGo_usageEvents uid b.events db
    rcases hgo : recordBulkGo uid b.events db with ⟨db1, res⟩
    rw [hgo] at hu hnone
    simp only at hu hnone
    cases res with
    | some evs => simp at hnone
    | none => exact ⟨rfl, hu⟩
  have hvalev : ∀ b : BulkBody, bulkBodyValid b = true →
      b.events.all validateRecordBody = true ∧ b.events ≠ [] := by
    intro b hv
    unfold bulkBodyValid bulkEventsValid at hv
    simp only [Bool.and_eq_true] at hv
    refine ⟨hv.2.2, ?_⟩
    intro hnil
    have h1 := hv.2.1.1
    rw [hnil] at h1
    simp at h1
  refine ⟨?_, ?_, ?_, ?_, ?_, ?_⟩
  · intro db b uid
    have hfe := enforceAgentBudget_frame db b.agentId b.costAmount uid
    rcases hmw : enforceAgentBudget db b.agentId b.costAmount uid with ⟨mw, db1⟩
    rw [hmw] at hfe
    obtain ⟨-, hu1, -, -, -, -, -⟩ := hfe
    simp only at hu1
    unfold recordBulk
    rw [hmw]
    cases mw with
    | denied s code => exact ⟨by simp, hu1⟩
    | deferred =>
      cases hba : b.agentId with
      | none =>
        rw [hba] at hmw
        unfold enforceAgentBudget at hmw
        simp at hmw
      | some aid =>
        have hbv : bulkBodyValid b = false := by
          simp [bulkBodyValid, hba]
        unfold recordBulkHandler
        simp only [hbv, Bool.false_eq_true, if_false]
        exact ⟨by simp, hu1⟩
    | passed ag =>
      cases hba : b.agentId with
      | none =>
        rw [hba] at hmw
        unfold enforceAgentBudget at hmw
        simp at hmw
      | some aid =>
        have hbv : bulkBodyValid b = false := by
          simp [bulkBodyValid, hba]
        unfold recordBulkHandler
        simp only [hbv, Bool.false_eq_true, if_false]
        exact ⟨by simp, hu1⟩
  · intro db events uid
    rfl
  · intro db b uid hne
    unfold recordBulkHandler at hne ⊢
    by_cases hv : bulkBodyValid b = true
    · simp only [hv, if_true] at hne ⊢
      have hu := recordBulkGo_usageEvents uid b.events db
      rcases hgo : recordBulkGo uid b.events db with ⟨db1, res⟩
      rw [hgo] at hne hu
      simp only at hu
      cases res with
      | some evs => simp at hne
      | none => exact hu
    · simp only [Bool.not_eq_true] at hv
      simp only [hv, Bool.false_eq_true, if_false]
  · intro db b uid hv hgs
    obtain ⟨-, hnil⟩ := hvalev b hv
    refine hcore db b uid hv ?_
    cases hev : b.events with
    | nil => exact absurd hev hnil
    | cons e rest => exact recordBulkGo_gs uid e rest db hgs
  · intro db b uid aid hv hwf hex hkill
    obtain ⟨hall, -⟩ := hvalev b hv
    exact hcore db b uid hv (recordBulkGo_killed uid aid b.events db hwf hall hex hkill)
  · intro db b uid aid hv hwf hex hpause
    obtain ⟨hall, -⟩ := hvalev b hv
    exact hcore db b uid hv (recordBulkGo_paused uid aid b.events db hwf hall hex hpause)

/-- Witness for C9: the route answers 400 `MISSING_AGENT_ID` on a valid
events-only batch (the claim's failing input), and the handler's transaction
rolls back — ledger untouched — for a batch naming a killed agent, one naming
an unexpired-paused agent, and one running under the global stop. -/
theorem C9_witness :
    recordBulk baseDb ⟨none, none, [bodyFor "X" 1]⟩ 1 =
      (.denied 400 "MISSING_AGENT_ID", baseDb) ∧
    ((recordBulkHandler dbKilled ⟨none, none, [bodyFor "K" 1]⟩ 1).1 = .serverError ∧
     (recordBulkHandler dbKilled ⟨none, none, [bodyFor "K" 1]⟩ 1).2.usageEvents =
       dbKilled.usageEvents) ∧
    ((recordBulkHandler dbPaused ⟨none, none, [bodyFor "Pf" 1]⟩ 1).1 = .serverError ∧
     (recordBulkHandler dbPaused ⟨none, none, [bodyFor "Pf" 1]⟩ 1).2.usageEvents =
       dbPaused.usageEvents) ∧
    ((recordBulkHandler baseDbStopped ⟨none, none, [bodyFor "X" 1]⟩ 1).1 = .serverError ∧
     (recordBulkHandler baseDbStopped ⟨none, none, [bodyFor "X" 1]⟩ 1).2.usageEvents =
       baseDbStopped.usageEvents) := by
  refine ⟨C9_bulk_atomic.2.1 baseDb [bodyFor "X" 1] 1, ?_, ?_, ?_⟩
  · exact C9_bulk_atomic.2.2.2.2.1 dbKilled ⟨none, none, [bodyFor "K" 1]⟩ 1 "K"
      (by decide) ⟨by decide, by decide⟩ ⟨bodyFor "K" 1, by simp, rfl⟩
      ⟨agentK, by decide, by decide⟩
  · exact C9_bulk_atomic.2.2.2.2.2 dbPaused ⟨none, none, [bodyFor "Pf" 1]⟩ 1 "Pf"
      (by decide) ⟨by decide, by decide⟩ ⟨bodyFor "Pf" 1, by simp, rfl⟩
      ⟨agentPf, 5000, by decide, by decide, by decide, by decide⟩
  · exact C9_bulk_atomic.2.2.2.1 baseDbStopped ⟨none, none, [bodyFor "X" 1]⟩ 1
      (by decide) (by decide)

end AgentPay
